import Mathlib

/-!
# RK818 charger driver (`drivers/power/rk818_charger.c`)

A shallow embedding of the charger driver's arbitration engine and the
properties its specification states about it.

Modelling conventions
* `u8`/`u32`/`u64` values are natural numbers; a truncation the C code performs
  (assignment to a `u8`, `u64` subtraction) is written as an explicit `%`.
* The PMIC register file is a function `Reg → Nat`.  Register accesses are
  assumed to succeed (the bus transport is outside the driver).
* Everything the driver does to its collaborators (register writes, IRQ
  enable/disable calls, power-supply notifications, queued work) is appended to
  an effect log, in program order.
* A local variable that the C code reads without having initialised it is a
  parameter of the definition (`val0`, `fake_offline0`): its content is indeterminate.
* Constants of `linux/mfd/rk808.h` that the driver only names are parameters.
-/

namespace Rk818

/-! ## Constants of the driver -/

def SAMPLE_RES_10MR : Int := 10
def SAMPLE_RES_20MR : Int := 20
def SAMPLE_RES_DIV1 : Nat := 1
def SAMPLE_RES_DIV2 : Nat := 2

/-- RK818_USB_CTRL_REG input-current codes. -/
def INPUT_CUR450MA : Nat := 0x00
def INPUT_CUR1500MA : Nat := 0x05
def INPUT_CUR_MSK : Nat := 0x0f
/-- RK818_VB_MON_REG: `BIT(6)`. -/
def PLUG_IN_STS : Nat := 0x40
/-- RK818_TS_CTRL_REG: `BIT(7)`. -/
def GG_EN : Nat := 0x80

def chrg_vol_sel_array : List Nat :=
  [4050, 4100, 4150, 4200, 4250, 4300, 4350]

def chrg_cur_sel_array : List Nat :=
  [1000, 1200, 1400, 1600, 1800, 2000, 2250, 2400, 2600, 2800, 3000]

def chrg_cur_input_array : List Nat :=
  [450, 800, 850, 1000, 1250, 1500, 1750, 2000, 2250, 2500, 2750, 3000]

/-- Modelled from the spec: the status enumeration of `linux/power_supply.h` is
not part of the sources; these are the three statuses the spec names
(`Discharging | Charging | Full`) with the kernel's numbering. -/
def POWER_SUPPLY_STATUS_CHARGING : Nat := 1
/-- Modelled from the spec: see `POWER_SUPPLY_STATUS_CHARGING`. -/
def POWER_SUPPLY_STATUS_DISCHARGING : Nat := 2
/-- Modelled from the spec: see `POWER_SUPPLY_STATUS_CHARGING`. -/
def POWER_SUPPLY_STATUS_FULL : Nat := 4

/-- The C operator `~` on a 32-bit operand. -/
def bit_not (x : Nat) : Nat := 0xFFFFFFFF ^^^ x

/-- Two's-complement wrap-around of a C `int` (32 bits). -/
def wrap_int (x : Int) : Int := (x + 2147483648) % 4294967296 - 2147483648

/-! ## Data model -/

/-- The type `enum charger_t`. -/
inductive charger_t
  | USB_TYPE_UNKNOWN_CHARGER
  | USB_TYPE_NONE_CHARGER
  | USB_TYPE_USB_CHARGER
  | USB_TYPE_AC_CHARGER
  | USB_TYPE_CDP_CHARGER
  | DC_TYPE_DC_CHARGER
  | DC_TYPE_NONE_CHARGER
  deriving DecidableEq

/-- Modelled from the spec: `enum bc_port_type` of `linux/power/rk_usbbc.h` is
not part of the sources; its members are the notifications the spec lists
(`Disconnected, SDP, DCP, CDP, OtgOn, OtgOff`) in the order of the driver's
`event_name` table. -/
inductive bc_port_type
  | USB_BC_TYPE_DISCNT
  | USB_BC_TYPE_SDP
  | USB_BC_TYPE_DCP
  | USB_BC_TYPE_CDP
  | USB_BC_TYPE_UNKNOW
  | USB_OTG_POWER_ON
  | USB_OTG_POWER_OFF
  deriving DecidableEq

/-- The PMIC registers the driver names (addresses are in `linux/mfd/rk808.h`). -/
inductive Reg
  | RK818_USB_CTRL_REG
  | RK818_VB_MON_REG
  | RK818_SOC_REG
  | RK818_TS_CTRL_REG
  | RK818_BAT_CUR_AVG_REGL
  | RK818_BAT_CUR_AVG_REGH
  | RK818_DCDC_EN_REG
  | RK818_SLEEP_SET_OFF_REG1
  | RK818_CHRG_CTRL_REG1
  | RK818_CHRG_CTRL_REG3
  | RK818_SUP_STS_REG
  deriving DecidableEq

/-- The two logical supplies registered by the driver. -/
inductive Psy
  | usb_psy
  | ac_psy
  deriving DecidableEq

/-- What the driver does to its collaborators. -/
inductive Effect
  | reg_write (reg : Reg) (buf : Nat)
  | reg_update_bits (reg : Reg) (mask : Nat) (val : Nat)
  | disable_irq (irq : Int)
  | enable_irq (irq : Int)
  | power_supply_changed (psy : Psy)
  | queue_finish_sig_work (msecs : Nat)
  deriving DecidableEq

/-- The type `struct charger_platform_data`. -/
structure charger_platform_data where
  max_input_current : Nat
  max_chrg_current : Nat
  max_chrg_voltage : Nat
  pwroff_vol : Nat
  power_dc2otg : Nat
  dc_det_level : Nat
  dc_det_pin : Int
  support_dc_det : Bool
  virtual_power : Int
  sample_res : Int
  otg5v_suspend_enable : Int
  extcon : Bool

/-- The type `struct rk818_charger` (data fields; `finish_sig_wq` records whether
the pointer is non-NULL). -/
structure rk818_charger where
  pdata : charger_platform_data
  finish_sig_wq : Bool
  usb_charger : charger_t
  dc_charger : charger_t
  ac_in : Nat
  usb_in : Nat
  otg_in : Nat
  dc_in : Nat
  prop_status : Nat
  chrg_voltage : Nat
  chrg_input : Nat
  chrg_current : Nat
  res_div : Nat
  sleep_set_off_reg1 : Nat
  plugin_trigger : Nat
  plugout_trigger : Nat
  plugin_irq : Int
  plugout_irq : Int

/-- The driver instance together with its surroundings: the register file, the
monotonic boot clock, the function-local `static u64 time` of
`rk818_cg_lowpwr_check`, and the log of effects. -/
structure Sys where
  cg : rk818_charger
  regs : Reg → Nat
  boot_sec : Nat
  time : Nat
  log : List Effect

/-! ## Register access shim -/

def rk818_reg_read (s : Sys) (reg : Reg) : Nat :=
  s.regs reg

def rk818_reg_write (s : Sys) (reg : Reg) (buf : Nat) : Sys :=
  { s with
    regs := fun r => if r = reg then buf % 256 else s.regs r
    log := s.log ++ [Effect.reg_write reg (buf % 256)] }

/-- The function `regmap_update_bits`: new = (old & ~mask) | (value & mask). -/
def regmap_update_bits (s : Sys) (reg : Reg) (mask val : Nat) : Sys :=
  { s with
    regs := fun r =>
      if r = reg then (s.regs reg &&& bit_not mask) ||| (val &&& mask) else s.regs r
    log := s.log ++ [Effect.reg_update_bits reg mask val] }

def rk818_reg_set_bits (s : Sys) (reg : Reg) (mask buf : Nat) : Sys :=
  regmap_update_bits s reg (mask % 256) (buf % 256)

def rk818_reg_clear_bits (s : Sys) (reg : Reg) (mask : Nat) : Sys :=
  regmap_update_bits s reg (mask % 256) 0

def disable_irq (s : Sys) (irq : Int) : Sys :=
  { s with log := s.log ++ [Effect.disable_irq irq] }

def enable_irq (s : Sys) (irq : Int) : Sys :=
  { s with log := s.log ++ [Effect.enable_irq irq] }

def power_supply_changed (s : Sys) (psy : Psy) : Sys :=
  { s with log := s.log ++ [Effect.power_supply_changed psy] }

/-! ## Quantizer -/

/-- The loop shared by the three decoders:
`for (index = 0; index < ARRAY_SIZE(tbl); index++) {
   if (req < tbl[index]) break;  val = index << sh; }`
run on the entries still to visit, with the current `index` and `val` (`u8`). -/
def decode_loop (req sh : Nat) : List Nat → Nat → Nat → Nat
  | [], _, val => val
  | e :: rest, index, val =>
    if req < e then val
    else decode_loop req sh rest (index + 1) ((index <<< sh) % 256)

def rk818_cg_decode_chrg_vol (cg : rk818_charger) (val0 : Nat) : Nat :=
  let chrg_vol := cg.pdata.max_chrg_voltage
  decode_loop chrg_vol 4 chrg_vol_sel_array 0 val0

def rk818_cg_decode_input_current (cg : rk818_charger) (val0 : Nat) : Nat :=
  let input_current := cg.pdata.max_input_current
  decode_loop input_current 0 chrg_cur_input_array 0 val0

def rk818_cg_decode_chrg_current (cg : rk818_charger) (val0 : Nat) : Nat :=
  let chrg_current := cg.pdata.max_chrg_current
  let chrg_current :=
    if cg.pdata.sample_res = SAMPLE_RES_10MR then
      if chrg_current > 2000 then chrg_current / cg.res_div else 1000
    else chrg_current
  decode_loop chrg_current 0 chrg_cur_sel_array 0 val0

/-! ## Low-power debouncer -/

def rk818_cg_online (s : Sys) : Nat :=
  s.cg.ac_in ||| s.cg.usb_in ||| s.cg.dc_in

def rk818_cg_get_dsoc (s : Sys) : Nat :=
  rk818_reg_read s Reg.RK818_SOC_REG

def rk818_cg_get_avg_current (s : Sys) : Int :=
  let val : Nat := 0
  let val := val ||| (rk818_reg_read s Reg.RK818_BAT_CUR_AVG_REGL <<< 0)
  let val := val ||| (rk818_reg_read s Reg.RK818_BAT_CUR_AVG_REGH <<< 8)
  let val : Int := if val &&& 0x800 ≠ 0 then (val : Int) - 4096 else (val : Int)
  let cur := Int.tdiv (wrap_int (wrap_int (val * (s.cg.res_div : Int)) * 1506)) 1000
  cur

/-- The monotonic boot time in seconds, as a `u64`; one call of the debouncer
sees one clock value. -/
def get_boot_sec (s : Sys) : Nat :=
  s.boot_sec % 2 ^ 64

/-- Returns `fake_offline` and the system with the updated static `time`. -/
def rk818_cg_lowpwr_check (s : Sys) : Nat × Sys :=
  let buf := rk818_reg_read s Reg.RK818_TS_CTRL_REG % 256
  if buf &&& GG_EN = 0 then (0, s)
  else
    let dsoc := rk818_cg_get_dsoc s
    let current_avg := rk818_cg_get_avg_current s
    if current_avg < 0 ∧ dsoc = 0 then
      let s := if s.time = 0 then { s with time := get_boot_sec s } else s
      if (get_boot_sec s + 2 ^ 64 - s.time) % 2 ^ 64 ≥ 30 then (1, s) else (0, s)
    else
      (0, { s with time := 0 })

/-! ## Charge-source state machine -/

def rk818_cg_set_input_current (s : Sys) (input_current : Nat) : Sys :=
  let input_current :=
    if s.cg.pdata.virtual_power ≠ 0 then s.cg.chrg_input else input_current
  let usb_ctrl := rk818_reg_read s Reg.RK818_USB_CTRL_REG % 256
  let usb_ctrl := (usb_ctrl &&& bit_not INPUT_CUR_MSK) % 256
  let usb_ctrl := (usb_ctrl ||| input_current) % 256
  rk818_reg_write s Reg.RK818_USB_CTRL_REG usb_ctrl

/-- The `switch (charger)` statement of `rk818_cg_set_chrg_param`. -/
def set_chrg_param_switch (s : Sys) (charger : charger_t) : Sys :=
  match charger with
  | .USB_TYPE_NONE_CHARGER =>
    let s := { s with cg.usb_in := 0 }
    let s := { s with cg.ac_in := 0 }
    let s :=
      if s.cg.dc_in = 0 then
        let s := { s with cg.prop_status := POWER_SUPPLY_STATUS_DISCHARGING }
        rk818_cg_set_input_current s INPUT_CUR450MA
      else s
    let s := power_supply_changed s Psy.usb_psy
    power_supply_changed s Psy.ac_psy
  | .USB_TYPE_USB_CHARGER =>
    let s := { s with cg.usb_in := 1 }
    let s := { s with cg.ac_in := 0 }
    let s := { s with cg.prop_status := POWER_SUPPLY_STATUS_CHARGING }
    let s :=
      if s.cg.dc_in = 0 then rk818_cg_set_input_current s INPUT_CUR450MA else s
    let s := power_supply_changed s Psy.usb_psy
    power_supply_changed s Psy.ac_psy
  | .USB_TYPE_AC_CHARGER | .USB_TYPE_CDP_CHARGER =>
    let s := { s with cg.ac_in := 1 }
    let s := { s with cg.usb_in := 0 }
    let s := { s with cg.prop_status := POWER_SUPPLY_STATUS_CHARGING }
    let s :=
      if charger = .USB_TYPE_AC_CHARGER then
        rk818_cg_set_input_current s s.cg.chrg_input
      else
        rk818_cg_set_input_current s INPUT_CUR1500MA
    let s := power_supply_changed s Psy.usb_psy
    power_supply_changed s Psy.ac_psy
  | .DC_TYPE_DC_CHARGER =>
    let s := { s with cg.dc_in := 1 }
    let s := { s with cg.prop_status := POWER_SUPPLY_STATUS_CHARGING }
    let s := rk818_cg_set_input_current s s.cg.chrg_input
    let s := power_supply_changed s Psy.usb_psy
    power_supply_changed s Psy.ac_psy
  | .DC_TYPE_NONE_CHARGER =>
    let s := { s with cg.dc_in := 0 }
    let buf := rk818_reg_read s Reg.RK818_VB_MON_REG % 256
    let s :=
      if buf &&& PLUG_IN_STS = 0 then
        let s := { s with cg.ac_in := 0 }
        let s := { s with cg.usb_in := 0 }
        let s := { s with cg.prop_status := POWER_SUPPLY_STATUS_DISCHARGING }
        rk818_cg_set_input_current s INPUT_CUR450MA
      else if s.cg.usb_in ≠ 0 then
        let s := rk818_cg_set_input_current s INPUT_CUR450MA
        { s with cg.prop_status := POWER_SUPPLY_STATUS_CHARGING }
      else s
    let s := power_supply_changed s Psy.usb_psy
    power_supply_changed s Psy.ac_psy
  | .USB_TYPE_UNKNOWN_CHARGER =>
    { s with cg.prop_status := POWER_SUPPLY_STATUS_DISCHARGING }

def rk818_cg_set_chrg_param (s : Sys) (charger : charger_t) : Sys :=
  let s := set_chrg_param_switch s charger
  let s :=
    if rk818_cg_online s ≠ 0 ∧ rk818_cg_get_dsoc s = 100 then
      { s with cg.prop_status := POWER_SUPPLY_STATUS_FULL }
    else s
  if s.cg.finish_sig_wq then
    { s with log := s.log ++ [Effect.queue_finish_sig_work 1000] }
  else s

/-! ## OTG supply controller -/

/-- The parameter `OTG_EN_MASK` is the constant of `linux/mfd/rk808.h`. -/
def rk818_cg_set_otg_state (OTG_EN_MASK : Nat) (s : Sys) (state : bc_port_type) : Sys :=
  match state with
  | .USB_OTG_POWER_ON =>
    if s.cg.otg_in ≠ 0 then s
    else
      let s := { s with cg.otg_in := 1 }
      let s := disable_irq s s.cg.plugin_irq
      let s := disable_irq s s.cg.plugout_irq
      rk818_reg_set_bits s Reg.RK818_DCDC_EN_REG OTG_EN_MASK OTG_EN_MASK
  | .USB_OTG_POWER_OFF =>
    if ¬ (s.cg.otg_in ≠ 0) then s
    else
      let s := { s with cg.otg_in := 0 }
      let s := enable_irq s s.cg.plugin_irq
      let s := enable_irq s s.cg.plugout_irq
      rk818_reg_clear_bits s Reg.RK818_DCDC_EN_REG OTG_EN_MASK
  | _ => s

/-! ## Reported properties -/

/-- Modelled from the spec: `enum power_supply_property` of
`linux/power_supply.h` is not part of the sources; these are the two properties
the spec names (`online`, `status`) and a member for every other property. -/
inductive power_supply_property
  | POWER_SUPPLY_PROP_STATUS
  | POWER_SUPPLY_PROP_ONLINE
  | POWER_SUPPLY_PROP_OTHER (n : Nat)
  deriving DecidableEq

/-- The error number `EINVAL` of `errno.h`. -/
def EINVAL : Int := 22

/-- Returns `ret`, the content of `val->intval` (`intval` on entry) and the
system, whose debouncer latch the call may have changed. -/
def rk818_cg_ac_get_property (s : Sys) (psp : power_supply_property) (intval : Int) :
    Int × Int × Sys :=
  let fake_offline : Int := 0
  let ret : Int := 0
  let r : Int × Sys :=
    if rk818_cg_online s ≠ 0 then
      ((rk818_cg_lowpwr_check s).1, (rk818_cg_lowpwr_check s).2)
    else (fake_offline, s)
  let fake_offline := r.1
  let s := r.2
  match psp with
  | .POWER_SUPPLY_PROP_ONLINE =>
    if s.cg.pdata.virtual_power ≠ 0 then (ret, 1, s)
    else if fake_offline ≠ 0 then (ret, 0, s)
    else (ret, ((s.cg.ac_in ||| s.cg.dc_in : Nat) : Int), s)
  | .POWER_SUPPLY_PROP_STATUS =>
    if s.cg.pdata.virtual_power ≠ 0 then (ret, (POWER_SUPPLY_STATUS_CHARGING : Int), s)
    else if fake_offline ≠ 0 then (ret, (POWER_SUPPLY_STATUS_DISCHARGING : Int), s)
    else (ret, (s.cg.prop_status : Int), s)
  | .POWER_SUPPLY_PROP_OTHER _ => (-EINVAL, intval, s)

/-- As `rk818_cg_ac_get_property`; the local `fake_offline` has no initialiser
here, `fake_offline0` is its indeterminate content. -/
def rk818_cg_usb_get_property (s : Sys) (psp : power_supply_property) (intval : Int)
    (fake_offline0 : Int) : Int × Int × Sys :=
  let fake_offline : Int := fake_offline0
  let ret : Int := 0
  let r : Int × Sys :=
    if rk818_cg_online s ≠ 0 then
      ((rk818_cg_lowpwr_check s).1, (rk818_cg_lowpwr_check s).2)
    else (fake_offline, s)
  let fake_offline := r.1
  let s := r.2
  match psp with
  | .POWER_SUPPLY_PROP_ONLINE =>
    if s.cg.pdata.virtual_power ≠ 0 then (ret, 1, s)
    else if fake_offline ≠ 0 then (ret, 0, s)
    else (ret, (s.cg.usb_in : Int), s)
  | .POWER_SUPPLY_PROP_STATUS =>
    if s.cg.pdata.virtual_power ≠ 0 then (ret, (POWER_SUPPLY_STATUS_CHARGING : Int), s)
    else if fake_offline ≠ 0 then (ret, (POWER_SUPPLY_STATUS_DISCHARGING : Int), s)
    else (ret, (s.cg.prop_status : Int), s)
  | .POWER_SUPPLY_PROP_OTHER _ => (-EINVAL, intval, s)

/-! ## Event handlers -/

/-- The argument `gpio_valid` is the result of `gpio_is_valid(dc_det_pin)` and
`level` the value read by `gpio_get_value(dc_det_pin)`. -/
def rk818_cg_get_dc_state (s : Sys) (gpio_valid : Bool) (level : Nat) : charger_t :=
  if ¬ gpio_valid then charger_t.DC_TYPE_NONE_CHARGER
  else if level = s.cg.pdata.dc_det_level then charger_t.DC_TYPE_DC_CHARGER
  else charger_t.DC_TYPE_NONE_CHARGER

/-- The DC detection work.  The wake-up key and the informational print that
end it change nothing of the system and are not represented. -/
def rk818_cg_dc_det_worker (OTG_EN_MASK : Nat) (s : Sys) (gpio_valid : Bool) (level : Nat) :
    Sys :=
  let charger := rk818_cg_get_dc_state s gpio_valid level
  if charger = charger_t.DC_TYPE_DC_CHARGER then
    let s := rk818_cg_set_chrg_param s charger_t.DC_TYPE_DC_CHARGER
    if s.cg.otg_in ≠ 0 ∧ s.cg.pdata.power_dc2otg ≠ 0 then
      rk818_cg_set_otg_state OTG_EN_MASK s bc_port_type.USB_OTG_POWER_OFF
    else s
  else
    let s := rk818_cg_set_chrg_param s charger_t.DC_TYPE_NONE_CHARGER
    if s.cg.otg_in ≠ 0 then
      rk818_cg_set_otg_state OTG_EN_MASK s bc_port_type.USB_OTG_POWER_ON
    else s

/-- The BC notification work; `bc_event` is the value the notifier stored in
`cg->bc_event` before queueing the work. -/
def rk818_cg_bc_evt_worker (OTG_EN_MASK : Nat) (s : Sys) (bc_event : bc_port_type) : Sys :=
  match bc_event with
  | .USB_BC_TYPE_DISCNT => rk818_cg_set_chrg_param s charger_t.USB_TYPE_NONE_CHARGER
  | .USB_BC_TYPE_SDP => rk818_cg_set_chrg_param s charger_t.USB_TYPE_USB_CHARGER
  | .USB_BC_TYPE_DCP => rk818_cg_set_chrg_param s charger_t.USB_TYPE_AC_CHARGER
  | .USB_BC_TYPE_CDP => rk818_cg_set_chrg_param s charger_t.USB_TYPE_CDP_CHARGER
  | .USB_OTG_POWER_ON =>
    if s.cg.pdata.power_dc2otg ≠ 0 ∧ s.cg.dc_in ≠ 0 then s
    else rk818_cg_set_otg_state OTG_EN_MASK s bc_port_type.USB_OTG_POWER_ON
  | .USB_OTG_POWER_OFF =>
    rk818_cg_set_otg_state OTG_EN_MASK s bc_port_type.USB_OTG_POWER_OFF
  | _ => s

/-- The Type-C host work; `vbus_en1` and `vbus_en2` are the results of its two
calls of `extcon_get_cable_state_(edev, EXTCON_USB_VBUS_EN)`. -/
def rk818_cg_host_evt_worker (OTG_EN_MASK : Nat) (s : Sys) (vbus_en1 vbus_en2 : Int) : Sys :=
  if vbus_en1 > 0 then
    if s.cg.dc_in ≠ 0 ∧ s.cg.pdata.power_dc2otg ≠ 0 then s
    else rk818_cg_set_otg_state OTG_EN_MASK s bc_port_type.USB_OTG_POWER_ON
  else if vbus_en2 = 0 then
    rk818_cg_set_otg_state OTG_EN_MASK s bc_port_type.USB_OTG_POWER_OFF
  else s

/-- The plug-in interrupt: latches the trigger (the queued work is
`rk818_cg_irq_delay_work`). -/
def rk818_plug_in_isr (s : Sys) : Sys :=
  { s with cg.plugin_trigger := 1 }

/-- The plug-out interrupt: latches the trigger (the queued work is
`rk818_cg_irq_delay_work`). -/
def rk818_plug_out_isr (s : Sys) : Sys :=
  { s with cg.plugout_trigger := 1 }

def rk818_cg_irq_delay_work (s : Sys) : Sys :=
  if s.cg.plugin_trigger ≠ 0 then
    { s with cg.plugin_trigger := 0 }
  else if s.cg.plugout_trigger ≠ 0 then
    let s := { s with cg.plugout_trigger := 0 }
    let s := rk818_cg_set_chrg_param s charger_t.USB_TYPE_NONE_CHARGER
    rk818_cg_set_chrg_param s charger_t.DC_TYPE_NONE_CHARGER
  else s

/-! ## Suspend and resume -/

/-- The parameters `OTG_BOOST_SLP_OFF` and `OTG_SLP_SET_OFF` are the constants
of `linux/mfd/rk808.h`.  Returns the return value and the system. -/
def rk818_charger_suspend (OTG_BOOST_SLP_OFF OTG_SLP_SET_OFF : Nat) (s : Sys) : Int × Sys :=
  let s := { s with
    cg.sleep_set_off_reg1 := rk818_reg_read s Reg.RK818_SLEEP_SET_OFF_REG1 % 256 }
  if s.cg.pdata.otg5v_suspend_enable ≠ 0 then
    if (s.cg.otg_in ≠ 0 ∧ ¬ (s.cg.dc_in ≠ 0)) ∨
        (s.cg.otg_in ≠ 0 ∧ s.cg.dc_in ≠ 0 ∧ ¬ (s.cg.pdata.power_dc2otg ≠ 0)) then
      (0, rk818_reg_clear_bits s Reg.RK818_SLEEP_SET_OFF_REG1 OTG_BOOST_SLP_OFF)
    else
      (0, rk818_reg_set_bits s Reg.RK818_SLEEP_SET_OFF_REG1 OTG_SLP_SET_OFF OTG_SLP_SET_OFF)
  else
    (0, rk818_reg_set_bits s Reg.RK818_SLEEP_SET_OFF_REG1 OTG_SLP_SET_OFF OTG_SLP_SET_OFF)

/-- The parameter `OTG_BOOST_SLP_OFF` is the constant of `linux/mfd/rk808.h`. -/
def rk818_charger_resume (OTG_BOOST_SLP_OFF : Nat) (s : Sys) : Int × Sys :=
  (0, rk818_reg_set_bits s Reg.RK818_SLEEP_SET_OFF_REG1 OTG_BOOST_SLP_OFF
    s.cg.sleep_set_off_reg1)

/-! ## Specification predicates and test harness -/

/-- The index `i` is the index of the largest entry of `tbl` not exceeding
`req`: entry `i` does not exceed `req`, and every entry that does not exceed
`req` sits at an index `≤ i` and is `≤` entry `i`. -/
def IsFloorIndex (tbl : List Nat) (req i : Nat) : Prop :=
  i < tbl.length ∧ tbl.getD i 0 ≤ req ∧
    ∀ j, j < tbl.length → tbl.getD j 0 ≤ req → j ≤ i ∧ tbl.getD j 0 ≤ tbl.getD i 0

/-- The quantizer contract for a request at or above the first entry: floor
index, exact hits return their own index, saturation at the last index. -/
def QuantizerContract (tbl : List Nat) (req i : Nat) : Prop :=
  IsFloorIndex tbl req i ∧
  (∀ k, k < tbl.length → req = tbl.getD k 0 → i = k) ∧
  (tbl.getD (tbl.length - 1) 0 ≤ req → i = tbl.length - 1)

/-- Platform data with the driver's defaults (`DEFAULT_*`, 20 mOhm resistor). -/
def pdata_default : charger_platform_data where
  max_input_current := 2000
  max_chrg_current := 1400
  max_chrg_voltage := 4200
  pwroff_vol := 0
  power_dc2otg := 0
  dc_det_level := 0
  dc_det_pin := 0
  support_dc_det := false
  virtual_power := 0
  sample_res := SAMPLE_RES_20MR
  otg5v_suspend_enable := 1
  extcon := false

/-- A driver instance after initialisation with no source attached. -/
def cg_init : rk818_charger where
  pdata := pdata_default
  finish_sig_wq := true
  usb_charger := charger_t.USB_TYPE_NONE_CHARGER
  dc_charger := charger_t.DC_TYPE_NONE_CHARGER
  ac_in := 0
  usb_in := 0
  otg_in := 0
  dc_in := 0
  prop_status := POWER_SUPPLY_STATUS_DISCHARGING
  chrg_voltage := 0x30
  chrg_input := 7
  chrg_current := 2
  res_div := SAMPLE_RES_DIV1
  sleep_set_off_reg1 := 0
  plugin_trigger := 0
  plugout_trigger := 0
  plugin_irq := 40
  plugout_irq := 41

/-- The instance `cg_init` with the given request values in its platform data. -/
def cg_request (vol input cur : Nat) (sample_res : Int) (res_div : Nat) : rk818_charger :=
  { cg_init with
    pdata := { pdata_default with
      max_chrg_voltage := vol, max_input_current := input,
      max_chrg_current := cur, sample_res := sample_res }
    res_div := res_div }

/-- What the hardware presents at one call of the debouncer: the register
contents and the monotonic boot second. -/
structure Reading where
  regs : Reg → Nat
  boot_sec : Nat

/-- The system as a handler finds it when the hardware presents `r`. -/
def observe (s : Sys) (r : Reading) : Sys :=
  { s with regs := r.regs, boot_sec := r.boot_sec }

/-- Consecutive calls of `rk818_cg_lowpwr_check`, one per reading; returns the
values returned by the calls, in order, and the final system. -/
def lowpwr_run (s : Sys) : List Reading → List Nat × Sys
  | [] => ([], s)
  | r :: rest =>
    let res := rk818_cg_lowpwr_check (observe s r)
    let tl := lowpwr_run res.2 rest
    (res.1 :: tl.1, tl.2)

/-- The gauge is enabled: `buf & GG_EN` is non-zero. -/
def gauge_enabled (s : Sys) : Prop :=
  (rk818_reg_read s Reg.RK818_TS_CTRL_REG % 256) &&& GG_EN ≠ 0

/-- The condition the debouncer times: `(current_avg < 0) && (dsoc == 0)`. -/
def lowpwr_condition (s : Sys) : Prop :=
  rk818_cg_get_avg_current s < 0 ∧ rk818_cg_get_dsoc s = 0

instance (s : Sys) : Decidable (gauge_enabled s) :=
  inferInstanceAs (Decidable (_ ≠ _))

instance (s : Sys) : Decidable (lowpwr_condition s) :=
  inferInstanceAs (Decidable (_ ∧ _))

/-- A system after initialisation: no source, latch clear, nothing logged. -/
def sys_init : Sys where
  cg := cg_init
  regs := fun _ => 0
  boot_sec := 0
  time := 0
  log := []

/-- Reading at second `t` with the gauge enabled, the given capacity and
average-current registers. -/
def reading (t soc cur_l cur_h : Nat) : Reading where
  regs := fun r =>
    match r with
    | Reg.RK818_TS_CTRL_REG => 0x80
    | Reg.RK818_SOC_REG => soc
    | Reg.RK818_BAT_CUR_AVG_REGL => cur_l
    | Reg.RK818_BAT_CUR_AVG_REGH => cur_h
    | _ => 0
  boot_sec := t

/-- Reading at second `t`: capacity 0, average current -99 mA (raw 0xFBE). -/
def reading_low (t : Nat) : Reading := reading t 0 0xBE 0x0F

/-- Reading at second `t`: capacity 0, average current +49 mA (raw 0x021). -/
def reading_pos (t : Nat) : Reading := reading t 0 0x21 0x00

/-- The byte `(old AND 0xF0) OR code`: the content of RK818_USB_CTRL_REG after
an input-current code has been put into its low nibble. -/
def usb_ctrl_with_code (old code : Nat) : Nat :=
  ((old % 256 &&& 0xF0) ||| code) % 256

/-- The effects `power_supply_changed(usb_psy); power_supply_changed(ac_psy)`. -/
def psy_changed_both : List Effect :=
  [Effect.power_supply_changed Psy.usb_psy, Effect.power_supply_changed Psy.ac_psy]

/-- The effect of re-arming the termination-signal work, when the queue exists. -/
def finish_sig_rearm (s : Sys) : List Effect :=
  if s.cg.finish_sig_wq then [Effect.queue_finish_sig_work 1000] else []

/-- The register file `sys_init` has, with the given SOC and VB_MON contents. -/
def regs_with (soc vb_mon usb_ctrl : Nat) : Reg → Nat :=
  fun r =>
    match r with
    | Reg.RK818_SOC_REG => soc
    | Reg.RK818_VB_MON_REG => vb_mon
    | Reg.RK818_USB_CTRL_REG => usb_ctrl
    | _ => 0

/-- The system `sys_init` in virtual-power mode with input code 7 configured. -/
def sys_virtual : Sys :=
  { sys_init with cg := { cg_init with pdata := { pdata_default with virtual_power := 1 } } }

/-- A system with the DC adapter and a USB host present, charging at 50 %. -/
def sys_dc_usb : Sys :=
  { sys_init with
    cg := { cg_init with dc_in := 1, usb_in := 1, prop_status := POWER_SUPPLY_STATUS_CHARGING }
    regs := regs_with 50 0x40 0x37 }

/-- The system `sys_init` on a board that shares DC power to the OTG rail. -/
def sys_dc2otg : Sys :=
  { sys_init with cg := { cg_init with pdata := { pdata_default with power_dc2otg := 1 } } }

/-- The state reached from `sys_init` (capacity 50) by a DC arrival followed
by a DC departure during which RK818_VB_MON_REG still shows PLUG_IN_STS. -/
def sys_dc_departed : Sys :=
  rk818_cg_set_chrg_param
    (observe
      (rk818_cg_set_chrg_param
        (observe sys_init { regs := regs_with 50 0 0, boot_sec := 0 })
        charger_t.DC_TYPE_DC_CHARGER)
      { regs := regs_with 50 0x40 0, boot_sec := 0 })
    charger_t.DC_TYPE_NONE_CHARGER

/-- The condition under which `rk818_charger_suspend` keeps the boost alive. -/
def otg_kept_in_sleep (s : Sys) : Prop :=
  s.cg.pdata.otg5v_suspend_enable ≠ 0 ∧ s.cg.otg_in ≠ 0 ∧
    (s.cg.dc_in = 0 ∨ s.cg.pdata.power_dc2otg = 0)

instance (s : Sys) : Decidable (otg_kept_in_sleep s) :=
  inferInstanceAs (Decidable (_ ∧ _))

/-- One `rk818_cg_set_chrg_param` transition: the event and the live register
contents the transition finds. -/
def chrg_step (s : Sys) (e : charger_t × Reading) : Sys :=
  rk818_cg_set_chrg_param (observe s e.2) e.1

/-- A sequence of `rk818_cg_set_chrg_param` transitions under arbitrary live
register readings. -/
def chrg_run (s : Sys) (evs : List (charger_t × Reading)) : Sys :=
  evs.foldl chrg_step s

/-- No source flag set implies status Discharging. -/
def no_source_discharging (s : Sys) : Prop :=
  s.cg.ac_in = 0 → s.cg.usb_in = 0 → s.cg.dc_in = 0 →
    s.cg.prop_status = POWER_SUPPLY_STATUS_DISCHARGING

/-- A DC departure that removes the last source flag (`dc_in` set, `ac_in` and
`usb_in` clear) reads PLUG_IN_STS clear. -/
def departure_settled (s : Sys) (e : charger_t × Reading) : Prop :=
  e.1 = charger_t.DC_TYPE_NONE_CHARGER → s.cg.ac_in = 0 → s.cg.usb_in = 0 →
    s.cg.dc_in ≠ 0 → (e.2.regs Reg.RK818_VB_MON_REG % 256) &&& PLUG_IN_STS = 0

instance (s : Sys) (e : charger_t × Reading) : Decidable (departure_settled s e) :=
  inferInstanceAs (Decidable (_ → _ → _ → _ → _))

/-- Every transition of the run satisfies `departure_settled` in the state it
is taken from. -/
def chrg_run_settled : Sys → List (charger_t × Reading) → Prop
  | _, [] => True
  | s, e :: rest => departure_settled s e ∧ chrg_run_settled (chrg_step s e) rest

/-- The flags `ac_in` and `usb_in` are not both set. -/
def ac_usb_exclusive (s : Sys) : Prop :=
  ¬ (s.cg.ac_in ≠ 0 ∧ s.cg.usb_in ≠ 0)

/-- The four presence flags are 0 or 1. -/
def flags_boolean (s : Sys) : Prop :=
  s.cg.ac_in ≤ 1 ∧ s.cg.usb_in ≤ 1 ∧ s.cg.dc_in ≤ 1 ∧ s.cg.otg_in ≤ 1

/-- The handlers that run on the driver's work queues and interrupt lines,
with the inputs each one reads. -/
inductive Handler
  | bc_evt (bc_event : bc_port_type)
  | host_evt (vbus_en1 vbus_en2 : Int)
  | dc_det (gpio_valid : Bool) (level : Nat)
  | irq_delay
  | plug_in_isr
  | plug_out_isr

/-- One execution of a handler. -/
def handle (OTG_EN_MASK : Nat) (s : Sys) : Handler → Sys
  | .bc_evt bc_event => rk818_cg_bc_evt_worker OTG_EN_MASK s bc_event
  | .host_evt vbus_en1 vbus_en2 => rk818_cg_host_evt_worker OTG_EN_MASK s vbus_en1 vbus_en2
  | .dc_det gpio_valid level => rk818_cg_dc_det_worker OTG_EN_MASK s gpio_valid level
  | .irq_delay => rk818_cg_irq_delay_work s
  | .plug_in_isr => rk818_plug_in_isr s
  | .plug_out_isr => rk818_plug_out_isr s

/-- One handler execution under the live register contents it finds. -/
def handler_step (OTG_EN_MASK : Nat) (s : Sys) (e : Handler × Reading) : Sys :=
  handle OTG_EN_MASK (observe s e.2) e.1

/-- A sequence of handler executions, one at a time. -/
def handlers_run (OTG_EN_MASK : Nat) (s : Sys) (evs : List (Handler × Reading)) : Sys :=
  evs.foldl (handler_step OTG_EN_MASK) s

/-- With DC-to-OTG power sharing configured, `dc_in` and `otg_in` are not both
set. -/
def dc_otg_exclusive (s : Sys) : Prop :=
  s.cg.pdata.power_dc2otg ≠ 0 ∧ ¬ (s.cg.dc_in ≠ 0 ∧ s.cg.otg_in ≠ 0)

/-! ## Quantizer: lemmas -/

theorem getD_mono (tbl : List Nat) (hs : tbl.Pairwise (· < ·)) (i j : Nat) (hij : i ≤ j)
    (hj : j < tbl.length) : tbl.getD i 0 ≤ tbl.getD j 0 := by
  rcases Nat.eq_or_lt_of_le hij with h | h
  · subst h; exact le_rfl
  · have hi : i < tbl.length := by omega
    rw [List.getD_eq_getElem _ _ hi, List.getD_eq_getElem _ _ hj]
    exact le_of_lt (List.pairwise_iff_getElem.mp hs i j hi hj h)

theorem getD_strict_mono (tbl : List Nat) (hs : tbl.Pairwise (· < ·)) (i j : Nat)
    (hij : i < j) (hj : j < tbl.length) : tbl.getD i 0 < tbl.getD j 0 := by
  have hi : i < tbl.length := by omega
  rw [List.getD_eq_getElem _ _ hi, List.getD_eq_getElem _ _ hj]
  exact List.pairwise_iff_getElem.mp hs i j hi hj hij

/-- Loop invariant of the decoders: on a strictly ascending table whose first
remaining entry does not exceed the request, the loop ends with
`val = (index + i) << sh` for the floor index `i` of the remaining entries. -/
theorem decode_loop_floor (req sh : Nat) :
    ∀ (tbl : List Nat) (index val : Nat), tbl.Pairwise (· < ·) →
      0 < tbl.length → tbl.getD 0 0 ≤ req →
      ∃ i, IsFloorIndex tbl req i ∧
        decode_loop req sh tbl index val = ((index + i) <<< sh) % 256 := by
  intro tbl
  induction tbl with
  | nil => intro _ _ _ h; simp at h
  | cons e rest ih =>
    intro index val hs _ he
    simp only [List.getD_cons_zero] at he
    have hnot : ¬ req < e := by omega
    simp only [decode_loop, hnot, if_false]
    by_cases hr : 0 < rest.length ∧ rest.getD 0 0 ≤ req
    · obtain ⟨i, ⟨hi1, hi2, hi3⟩, hres⟩ :=
        ih (index + 1) ((index <<< sh) % 256) (List.Pairwise.of_cons hs) hr.1 hr.2
      refine ⟨i + 1, ⟨by simpa using hi1, by simpa using hi2, ?_⟩, ?_⟩
      · intro j hj hjr
        cases j with
        | zero =>
          refine ⟨by omega, ?_⟩
          exact getD_mono (e :: rest) hs 0 (i + 1) (by omega) (by simpa using hi1)
        | succ j =>
          simp only [List.getD_cons_succ, List.length_cons] at hj hjr ⊢
          have := hi3 j (by omega) hjr
          exact ⟨by omega, this.2⟩
      · rw [hres]; congr 2; omega
    · refine ⟨0, ⟨by simp, by simpa using he, ?_⟩, ?_⟩
      · intro j hj hjr
        cases j with
        | zero => simp
        | succ j =>
          exfalso
          simp only [List.getD_cons_succ, List.length_cons] at hj hjr
          have hj2 : j < rest.length := by omega
          have h0 := getD_mono rest (List.Pairwise.of_cons hs) 0 j (by omega) hj2
          exact hr ⟨by omega, by omega⟩
      · cases rest with
        | nil => simp [decode_loop]
        | cons e2 rest2 =>
          have : req < e2 := by
            by_contra hc
            exact hr ⟨by simp, by simpa using hc⟩
          simp [decode_loop, this]

theorem floor_index_contract (tbl : List Nat) (hs : tbl.Pairwise (· < ·)) (req i : Nat)
    (h : IsFloorIndex tbl req i) : QuantizerContract tbl req i := by
  obtain ⟨h1, h2, h3⟩ := h
  refine ⟨⟨h1, h2, h3⟩, ?_, ?_⟩
  · intro k hk hreq
    have hki := (h3 k hk (by omega)).1
    rcases Nat.eq_or_lt_of_le hki with hq | hlt
    · exact hq.symm
    · have := getD_strict_mono tbl hs k i hlt h1
      omega
  · intro hlast
    have := (h3 (tbl.length - 1) (by omega) hlast).1
    omega

theorem vol_sorted : chrg_vol_sel_array.Pairwise (· < ·) := by decide

theorem cur_sorted : chrg_cur_sel_array.Pairwise (· < ·) := by decide

theorem input_sorted : chrg_cur_input_array.Pairwise (· < ·) := by decide

/-- The loop on a strictly ascending table, for a request at or above the first
entry and a shift that keeps every index within a byte, meets the contract. -/
theorem decode_loop_contract (tbl : List Nat) (hs : tbl.Pairwise (· < ·)) (req sh val : Nat)
    (hlen : 0 < tbl.length) (hfirst : tbl.getD 0 0 ≤ req)
    (hfit : tbl.length <<< sh ≤ 256) :
    QuantizerContract tbl req (decode_loop req sh tbl 0 val >>> sh) := by
  obtain ⟨i, hi, hres⟩ := decode_loop_floor req sh tbl 0 val hs hlen hfirst
  have hlt : i < tbl.length := hi.1
  have hb : i <<< sh < 256 := by
    rw [Nat.shiftLeft_eq] at hfit ⊢
    have : i * 2 ^ sh < tbl.length * 2 ^ sh :=
      Nat.mul_lt_mul_of_pos_right hlt (Nat.two_pow_pos sh)
    omega
  have hval : decode_loop req sh tbl 0 val >>> sh = i := by
    rw [hres, Nat.zero_add, Nat.mod_eq_of_lt hb, Nat.shiftLeft_eq, Nat.shiftRight_eq_div_pow,
      Nat.mul_div_cancel _ (Nat.two_pow_pos sh)]
  rw [hval]
  exact floor_index_contract tbl hs req i hi

/-! ## Quantizer: claims -/

/-- C1. For each of the three quantizers (charge voltage, input current, charge
current with the 20 mOhm resistor) and every request at or above the first
table entry, the returned index (for voltage: the returned code shifted right
by 4) is the index of the largest table entry not exceeding the request; a
request equal to an entry returns that entry's index and a request at or above
the last entry returns the last index.  This holds whatever the uninitialised
local `val` contained. -/
theorem quantizer_floor_index (cg : rk818_charger) (val0 : Nat) :
    (4050 ≤ cg.pdata.max_chrg_voltage →
      QuantizerContract chrg_vol_sel_array cg.pdata.max_chrg_voltage
        (rk818_cg_decode_chrg_vol cg val0 >>> 4)) ∧
    (450 ≤ cg.pdata.max_input_current →
      QuantizerContract chrg_cur_input_array cg.pdata.max_input_current
        (rk818_cg_decode_input_current cg val0)) ∧
    (cg.pdata.sample_res = SAMPLE_RES_20MR → 1000 ≤ cg.pdata.max_chrg_current →
      QuantizerContract chrg_cur_sel_array cg.pdata.max_chrg_current
        (rk818_cg_decode_chrg_current cg val0)) := by
  refine ⟨?_, ?_, ?_⟩
  · intro h
    exact decode_loop_contract chrg_vol_sel_array vol_sorted _ 4 val0 (by decide) h (by decide)
  · intro h
    exact decode_loop_contract chrg_cur_input_array input_sorted _ 0 val0 (by decide) h
      (by decide)
  · intro hres h
    have hne : ¬ cg.pdata.sample_res = SAMPLE_RES_10MR := by
      rw [hres]; decide
    simp only [rk818_cg_decode_chrg_current, hne, if_false]
    exact decode_loop_contract chrg_cur_sel_array cur_sorted _ 0 val0 (by decide) h (by decide)

/-- Witness for C1: the default requests 4200 mV, 2000 mA and 1400 mA. -/
theorem quantizer_floor_index_witness :
    QuantizerContract chrg_vol_sel_array 4200
        (rk818_cg_decode_chrg_vol (cg_request 4200 2000 1400 20 1) 0xA5 >>> 4) ∧
    QuantizerContract chrg_cur_input_array 2000
        (rk818_cg_decode_input_current (cg_request 4200 2000 1400 20 1) 0xA5) ∧
    QuantizerContract chrg_cur_sel_array 1400
        (rk818_cg_decode_chrg_current (cg_request 4200 2000 1400 20 1) 0xA5) ∧
    rk818_cg_decode_chrg_vol (cg_request 4200 2000 1400 20 1) 0xA5 = 0x30 ∧
    rk818_cg_decode_input_current (cg_request 4200 2000 1400 20 1) 0xA5 = 7 ∧
    rk818_cg_decode_chrg_current (cg_request 4200 2000 1400 20 1) 0xA5 = 2 :=
  ⟨(quantizer_floor_index (cg_request 4200 2000 1400 20 1) 0xA5).1 (by decide),
   (quantizer_floor_index (cg_request 4200 2000 1400 20 1) 0xA5).2.1 (by decide),
   (quantizer_floor_index (cg_request 4200 2000 1400 20 1) 0xA5).2.2 (by decide) (by decide),
   by decide, by decide, by decide⟩

/-- C2 (the code departs from the claim). A request below the first table entry
leaves the loop before `val` is ever assigned, so each quantizer returns the
indeterminate initial content of `val`, not 0: with 4000 mV, 400 mA and 900 mA
requested and 0xA5 in `val`, all three return 0xA5. -/
theorem quantizer_below_first_uninitialised :
    rk818_cg_decode_chrg_vol (cg_request 4000 400 900 20 1) 0xA5 = 0xA5 ∧
    rk818_cg_decode_input_current (cg_request 4000 400 900 20 1) 0xA5 = 0xA5 ∧
    rk818_cg_decode_chrg_current (cg_request 4000 400 900 20 1) 0xA5 = 0xA5 ∧
    ∀ val0 : Nat,
      rk818_cg_decode_chrg_vol (cg_request 4000 400 900 20 1) val0 = val0 ∧
      rk818_cg_decode_input_current (cg_request 4000 400 900 20 1) val0 = val0 ∧
      rk818_cg_decode_chrg_current (cg_request 4000 400 900 20 1) val0 = val0 :=
  ⟨rfl, rfl, rfl, fun _ => ⟨rfl, rfl, rfl⟩⟩

/-- C3. With the low-resistance sense resistor (`sample_res == 10`,
`res_div == 2`): a request above 2000 mA is looked up as the request halved
(integer division), so the result is the floor index of the halved request; a
request of at most 2000 mA is looked up as 1000 mA, which is index 0. -/
theorem chrg_current_low_res (cg : rk818_charger) (val0 : Nat)
    (hres : cg.pdata.sample_res = SAMPLE_RES_10MR) (hdiv : cg.res_div = SAMPLE_RES_DIV2) :
    (2000 < cg.pdata.max_chrg_current →
      rk818_cg_decode_chrg_current cg val0 =
        decode_loop (cg.pdata.max_chrg_current / 2) 0 chrg_cur_sel_array 0 val0 ∧
      QuantizerContract chrg_cur_sel_array (cg.pdata.max_chrg_current / 2)
        (rk818_cg_decode_chrg_current cg val0)) ∧
    (cg.pdata.max_chrg_current ≤ 2000 →
      rk818_cg_decode_chrg_current cg val0 =
        decode_loop 1000 0 chrg_cur_sel_array 0 val0 ∧
      rk818_cg_decode_chrg_current cg val0 = 0) := by
  refine ⟨?_, ?_⟩
  · intro h
    have heq : rk818_cg_decode_chrg_current cg val0 =
        decode_loop (cg.pdata.max_chrg_current / 2) 0 chrg_cur_sel_array 0 val0 := by
      simp only [rk818_cg_decode_chrg_current, hres, hdiv, SAMPLE_RES_DIV2, if_true, h,
        gt_iff_lt]
    refine ⟨heq, ?_⟩
    rw [heq]
    exact decode_loop_contract chrg_cur_sel_array cur_sorted _ 0 val0 (by decide)
      (by simp only [chrg_cur_sel_array, List.getD_cons_zero]; omega) (by decide)
  · intro h
    have hle : ¬ cg.pdata.max_chrg_current > 2000 := by omega
    have heq : rk818_cg_decode_chrg_current cg val0 =
        decode_loop 1000 0 chrg_cur_sel_array 0 val0 := by
      simp only [rk818_cg_decode_chrg_current, hres, if_true, hle, if_false]
    exact ⟨heq, by rw [heq]; rfl⟩

/-- Witness for C3: 2500 mA is looked up as 1250 mA (index 1, the 1200 mA
entry) and 1500 mA as 1000 mA (index 0). -/
theorem chrg_current_low_res_witness :
    (2500 / 2 = 1250 ∧
      rk818_cg_decode_chrg_current (cg_request 4200 2000 2500 10 2) 0xA5 =
        decode_loop 1250 0 chrg_cur_sel_array 0 0xA5 ∧
      rk818_cg_decode_chrg_current (cg_request 4200 2000 2500 10 2) 0xA5 = 1 ∧
      chrg_cur_sel_array.getD 1 0 = 1200) ∧
    (rk818_cg_decode_chrg_current (cg_request 4200 2000 1500 10 2) 0xA5 =
        decode_loop 1000 0 chrg_cur_sel_array 0 0xA5 ∧
      rk818_cg_decode_chrg_current (cg_request 4200 2000 1500 10 2) 0xA5 = 0) :=
  ⟨⟨by decide,
    ((chrg_current_low_res (cg_request 4200 2000 2500 10 2) 0xA5 rfl rfl).1 (by decide)).1,
    by decide, by decide⟩,
   (chrg_current_low_res (cg_request 4200 2000 1500 10 2) 0xA5 rfl rfl).2 (by decide)⟩

/-! ## Low-power debouncer -/

theorem lowpwr_check_in (s : Sys) (hg : gauge_enabled s) (hc : lowpwr_condition s) :
    rk818_cg_lowpwr_check s =
      (if 30 ≤ (get_boot_sec s + 2 ^ 64 - (if s.time = 0 then get_boot_sec s else s.time))
            % 2 ^ 64 then 1 else 0,
       { s with time := if s.time = 0 then get_boot_sec s else s.time }) := by
  have hg2 : ¬ ((rk818_reg_read s Reg.RK818_TS_CTRL_REG % 256) &&& GG_EN = 0) := hg
  have hc2 : rk818_cg_get_avg_current s < 0 ∧ rk818_cg_get_dsoc s = 0 := hc
  unfold rk818_cg_lowpwr_check
  simp only [hg2, if_false, hc2, and_self, if_true, ge_iff_le]
  by_cases h0 : s.time = 0
  · simp only [h0, if_true, get_boot_sec]
    split <;> rfl
  · simp only [h0, if_false]
    split <;> rfl

theorem lowpwr_check_out (s : Sys) (hg : gauge_enabled s) (hc : ¬ lowpwr_condition s) :
    rk818_cg_lowpwr_check s = (0, { s with time := 0 }) := by
  have hg2 : ¬ ((rk818_reg_read s Reg.RK818_TS_CTRL_REG % 256) &&& GG_EN = 0) := hg
  have hc2 : ¬ (rk818_cg_get_avg_current s < 0 ∧ rk818_cg_get_dsoc s = 0) := hc
  unfold rk818_cg_lowpwr_check
  simp only [hg2, if_false, hc2]

/-- Once the latch holds a non-zero second `L`, every in-condition call at a
second `t ≥ L` returns 1 exactly when `t - L ≥ 30`. -/
theorem lowpwr_run_latched (L : Nat) (hL : 1 ≤ L) :
    ∀ (rest : List Reading) (s : Sys), s.time = L →
      (∀ r ∈ rest, gauge_enabled (observe s r) ∧ lowpwr_condition (observe s r) ∧
        L ≤ r.boot_sec ∧ r.boot_sec < 2 ^ 64) →
      (lowpwr_run s rest).1 =
        rest.map (fun r => if 30 ≤ r.boot_sec - L then 1 else 0) := by
  intro rest
  induction rest with
  | nil => intro s _ _; rfl
  | cons r rest ih =>
    intro s hs hall
    obtain ⟨hg, hc, hle, hlt⟩ := hall r (List.mem_cons_self r rest)
    have htime : (observe s r).time = L := hs
    have hne : ¬ L = 0 := by omega
    have hstep := lowpwr_check_in (observe s r) hg hc
    simp only [htime, hne, if_false] at hstep
    have hsec : get_boot_sec (observe s r) = r.boot_sec := Nat.mod_eq_of_lt hlt
    have hsub : (r.boot_sec + 2 ^ 64 - L) % 2 ^ 64 = r.boot_sec - L := by
      have : r.boot_sec + 2 ^ 64 - L = (r.boot_sec - L) + 2 ^ 64 := by omega
      rw [this, Nat.add_mod_right]
      exact Nat.mod_eq_of_lt (by omega)
    rw [hsec, hsub] at hstep
    simp only [lowpwr_run, List.map_cons, hstep]
    congr 1
    exact ih _ rfl (fun r2 hr2 => hall r2 (List.mem_cons_of_mem r hr2))

/-- C4 as stated, with `t0 = 0` allowed, fails: the latch encodes "clear" as 0,
so a first observation at boot second 0 is not remembered and the next call
restarts the window.  With the latch clear and the gauge enabled, in-condition
calls at seconds 0 and 30 return 0 and 0, although 30 - 0 ≥ 30; hence the
claim quantified over every `t0` is false. -/
theorem lowpwr_debounce_fails_at_t0_zero :
    sys_init.time = 0 ∧
    (∀ r ∈ [reading_low 0, reading_low 30],
      gauge_enabled (observe sys_init r) ∧ lowpwr_condition (observe sys_init r)) ∧
    (lowpwr_run sys_init [reading_low 0, reading_low 30]).1 = [0, 0] ∧
    30 ≤ (reading_low 30).boot_sec - (reading_low 0).boot_sec ∧
    ¬ (∀ (s : Sys) (r0 : Reading) (rest : List Reading), s.time = 0 →
        (∀ r ∈ r0 :: rest, gauge_enabled (observe s r) ∧ lowpwr_condition (observe s r) ∧
          r0.boot_sec ≤ r.boot_sec ∧ r.boot_sec < 2 ^ 64) →
        (lowpwr_run s (r0 :: rest)).1 =
          (r0 :: rest).map (fun r => if 30 ≤ r.boot_sec - r0.boot_sec then 1 else 0)) := by
  refine ⟨rfl, by decide, by decide, by decide, ?_⟩
  intro h
  have h1 := h sys_init (reading_low 0) [reading_low 30] rfl (by
    intro r hr
    simp only [List.mem_cons, List.mem_singleton, List.not_mem_nil, or_false] at hr
    rcases hr with rfl | rfl <;> decide)
  revert h1
  decide

/-- From a clear latch, a run of in-condition calls that starts at a second
`t0 ≥ 1` returns 1 exactly at the calls with `t - t0 ≥ 30`. -/
theorem lowpwr_run_from_clear (s : Sys) (r0 : Reading) (rest : List Reading)
    (hlatch : s.time = 0) (ht0 : 1 ≤ r0.boot_sec)
    (hall : ∀ r ∈ r0 :: rest, gauge_enabled (observe s r) ∧ lowpwr_condition (observe s r) ∧
      r0.boot_sec ≤ r.boot_sec ∧ r.boot_sec < 2 ^ 64) :
    (lowpwr_run s (r0 :: rest)).1 =
      (r0 :: rest).map (fun r => if 30 ≤ r.boot_sec - r0.boot_sec then 1 else 0) := by
  obtain ⟨hg, hc, _, hlt⟩ := hall r0 (List.mem_cons_self r0 rest)
  have htime : (observe s r0).time = 0 := hlatch
  have hstep := lowpwr_check_in (observe s r0) hg hc
  have hsec : get_boot_sec (observe s r0) = r0.boot_sec := Nat.mod_eq_of_lt hlt
  simp only [htime, if_true, hsec] at hstep
  have hsub : (r0.boot_sec + 2 ^ 64 - r0.boot_sec) % 2 ^ 64 = 0 := by
    rw [Nat.add_sub_cancel_left]; exact Nat.mod_self _
  rw [hsub] at hstep
  simp only [lowpwr_run, List.map_cons, hstep, Nat.sub_self]
  congr 1
  exact lowpwr_run_latched r0.boot_sec ht0 rest _ rfl
    (fun r hr => hall r (List.mem_cons_of_mem r0 hr))

/-- Whatever the latch holds (clear, or a second not before `t1`), an
in-condition call of a time-ordered run returns 1 only at a second `t` with
`t - t1 ≥ 30`. -/
theorem lowpwr_run_sound (t1 : Nat) :
    ∀ (rest : List Reading) (s : Sys), (s.time = 0 ∨ t1 ≤ s.time) →
      (∀ r ∈ rest, gauge_enabled (observe s r) ∧ lowpwr_condition (observe s r) ∧
        r.boot_sec < 2 ^ 64 ∧ t1 ≤ r.boot_sec ∧ s.time ≤ r.boot_sec) →
      rest.Pairwise (fun a b => a.boot_sec ≤ b.boot_sec) →
      ∀ r out, (r, out) ∈ List.zip rest (lowpwr_run s rest).1 → out = 1 →
        30 ≤ r.boot_sec - t1 := by
  intro rest
  induction rest with
  | nil => intro s _ _ _ r out h; simp [lowpwr_run] at h
  | cons r0 rest ih =>
    intro s hs hall hsorted r out hmem hout
    obtain ⟨hg, hc, hlt, ht1, hle⟩ := hall r0 (List.mem_cons_self r0 rest)
    have hstep := lowpwr_check_in (observe s r0) hg hc
    have hsec : get_boot_sec (observe s r0) = r0.boot_sec := Nat.mod_eq_of_lt hlt
    have htime : (observe s r0).time = s.time := rfl
    rw [hsec, htime] at hstep
    have hL1 : (if s.time = 0 then r0.boot_sec else s.time) ≤ r0.boot_sec := by
      split <;> omega
    have hL2 : t1 ≤ (if s.time = 0 then r0.boot_sec else s.time) := by
      split <;> omega
    generalize (if s.time = 0 then r0.boot_sec else s.time) = L at hstep hL1 hL2
    have hsub : (r0.boot_sec + 2 ^ 64 - L) % 2 ^ 64 = r0.boot_sec - L := by
      have : r0.boot_sec + 2 ^ 64 - L = (r0.boot_sec - L) + 2 ^ 64 := by omega
      rw [this, Nat.add_mod_right]
      exact Nat.mod_eq_of_lt (by omega)
    rw [hsub] at hstep
    simp only [lowpwr_run, hstep, List.zip_cons_cons, List.mem_cons, Prod.mk.injEq] at hmem
    rcases hmem with ⟨rfl, rfl⟩ | hmem
    · by_cases h30 : 30 ≤ r.boot_sec - L
      · omega
      · simp [h30] at hout
    · refine ih _ (Or.inr hL2) ?_ (List.Pairwise.of_cons hsorted) r out hmem hout
      intro r2 hr2
      obtain ⟨hg2, hc2, hlt2, ht12, _⟩ := hall r2 (List.mem_cons_of_mem r0 hr2)
      have h02 : r0.boot_sec ≤ r2.boot_sec := List.rel_of_pairwise_cons hsorted hr2
      exact ⟨hg2, hc2, hlt2, ht12, le_trans hL1 h02⟩

/-- C4 (amended). With the gauge enabled and the latch clear, if the condition
(average current < 0 and capacity == 0) is first observed at boot second
`t0 ≥ 1` and at every later call, then the call at second `t` returns 1 exactly
when `t - t0 ≥ 30` and 0 otherwise. -/
theorem lowpwr_debounce_threshold (s : Sys) (r0 : Reading) (rest : List Reading)
    (hlatch : s.time = 0) (ht0 : 1 ≤ r0.boot_sec)
    (hall : ∀ r ∈ r0 :: rest, gauge_enabled (observe s r) ∧ lowpwr_condition (observe s r) ∧
      r0.boot_sec ≤ r.boot_sec ∧ r.boot_sec < 2 ^ 64) :
    (lowpwr_run s (r0 :: rest)).1 =
      (r0 :: rest).map (fun r => if 30 ≤ r.boot_sec - r0.boot_sec then 1 else 0) :=
  lowpwr_run_from_clear s r0 rest hlatch ht0 hall

/-- Witness for C4: first observation at second 5, calls at seconds 34 (29 s
later: 0), 35 (30 s later: 1) and 60 (1). -/
theorem lowpwr_debounce_threshold_witness :
    (lowpwr_run sys_init [reading_low 5, reading_low 34, reading_low 35, reading_low 60]).1 =
      [0, 0, 1, 1] :=
  lowpwr_debounce_threshold sys_init (reading_low 5)
    [reading_low 34, reading_low 35, reading_low 60] rfl (by decide) (by
      intro r hr
      simp only [List.mem_cons, List.mem_singleton, List.not_mem_nil, or_false] at hr
      rcases hr with rfl | rfl | rfl | rfl <;> decide)

/-- C5. With the gauge enabled, a call whose reading is outside the condition
returns 0 and clears the latch whatever the latch held; in a following
time-ordered run of in-condition readings a call returns 1 only when 30
seconds have elapsed since the first in-condition reading after the reset
(and, that reading being at a second `≥ 1`, exactly then). -/
theorem lowpwr_debounce_reset (s : Sys) (rout r1 : Reading) (rest : List Reading)
    (hout : gauge_enabled (observe s rout) ∧ ¬ lowpwr_condition (observe s rout))
    (hall : ∀ r ∈ r1 :: rest, gauge_enabled (observe s r) ∧ lowpwr_condition (observe s r) ∧
      r.boot_sec < 2 ^ 64)
    (hsorted : (r1 :: rest).Pairwise (fun a b => a.boot_sec ≤ b.boot_sec)) :
    (rk818_cg_lowpwr_check (observe s rout)).1 = 0 ∧
    (rk818_cg_lowpwr_check (observe s rout)).2.time = 0 ∧
    (∃ outs, (lowpwr_run s (rout :: r1 :: rest)).1 = 0 :: outs ∧
      (∀ r out, (r, out) ∈ List.zip (r1 :: rest) outs → out = 1 →
        30 ≤ r.boot_sec - r1.boot_sec) ∧
      (1 ≤ r1.boot_sec →
        outs = (r1 :: rest).map (fun r => if 30 ≤ r.boot_sec - r1.boot_sec then 1 else 0))) := by
  have hstep := lowpwr_check_out (observe s rout) hout.1 hout.2
  have hle : ∀ r ∈ r1 :: rest, r1.boot_sec ≤ r.boot_sec := by
    intro r hr
    rcases List.mem_cons.mp hr with rfl | hr2
    · exact le_rfl
    · exact List.rel_of_pairwise_cons hsorted hr2
  refine ⟨by rw [hstep], by rw [hstep], ?_⟩
  refine ⟨(lowpwr_run (rk818_cg_lowpwr_check (observe s rout)).2 (r1 :: rest)).1, ?_, ?_, ?_⟩
  · show (lowpwr_run s (rout :: r1 :: rest)).1 = _
    rw [lowpwr_run]
    simp only [hstep]
  · rw [hstep]
    refine lowpwr_run_sound r1.boot_sec (r1 :: rest) _ (Or.inl rfl) ?_ hsorted
    intro r hr
    obtain ⟨hg, hc, hlt⟩ := hall r hr
    exact ⟨hg, hc, hlt, hle r hr, Nat.zero_le _⟩
  · intro h1
    rw [hstep]
    refine lowpwr_run_from_clear _ r1 rest rfl h1 ?_
    intro r hr
    obtain ⟨hg, hc, hlt⟩ := hall r hr
    exact ⟨hg, hc, hle r hr, hlt⟩

/-- Witness for C5: the latch holds second 7; a +49 mA reading at second 40
returns 0 and clears it; in-condition readings at seconds 41, 70 and 71 then
return 0, 0 (29 s) and 1 (30 s). -/
theorem lowpwr_debounce_reset_witness :
    (rk818_cg_lowpwr_check (observe { sys_init with time := 7 } (reading_pos 40))).1 = 0 ∧
    (rk818_cg_lowpwr_check (observe { sys_init with time := 7 } (reading_pos 40))).2.time = 0 ∧
    (lowpwr_run { sys_init with time := 7 }
      [reading_pos 40, reading_low 41, reading_low 70, reading_low 71]).1 = [0, 0, 0, 1] ∧
    (∃ outs, (lowpwr_run { sys_init with time := 7 }
        [reading_pos 40, reading_low 41, reading_low 70, reading_low 71]).1 = 0 :: outs ∧
      (∀ r out, (r, out) ∈ List.zip [reading_low 41, reading_low 70, reading_low 71] outs →
        out = 1 → 30 ≤ r.boot_sec - (reading_low 41).boot_sec) ∧
      (1 ≤ (reading_low 41).boot_sec →
        outs = [reading_low 41, reading_low 70, reading_low 71].map
          (fun r => if 30 ≤ r.boot_sec - (reading_low 41).boot_sec then 1 else 0))) :=
  ⟨by decide, by decide, by decide,
   (lowpwr_debounce_reset { sys_init with time := 7 } (reading_pos 40) (reading_low 41)
      [reading_low 70, reading_low 71] (by decide)
      (by
        intro r hr
        simp only [List.mem_cons, List.mem_singleton, List.not_mem_nil, or_false] at hr
        rcases hr with rfl | rfl | rfl <;> decide)
      (by simp [reading_low, reading])).2.2⟩

/-! ## Charge-source state machine: lemmas -/

theorem nat_or_eq_zero (a b : Nat) : a ||| b = 0 ↔ a = 0 ∧ b = 0 := by
  constructor
  · intro h
    constructor
    · apply Nat.eq_of_testBit_eq
      intro i
      have := congrArg (fun n => n.testBit i) h
      simp only [Nat.testBit_or, Nat.zero_testBit, Bool.or_eq_false_iff] at this
      simp [this.1]
    · apply Nat.eq_of_testBit_eq
      intro i
      have := congrArg (fun n => n.testBit i) h
      simp only [Nat.testBit_or, Nat.zero_testBit, Bool.or_eq_false_iff] at this
      simp [this.2]
  · rintro ⟨rfl, rfl⟩; rfl

theorem online_eq_zero (s : Sys) :
    rk818_cg_online s = 0 ↔ s.cg.ac_in = 0 ∧ s.cg.usb_in = 0 ∧ s.cg.dc_in = 0 := by
  unfold rk818_cg_online
  rw [nat_or_eq_zero, nat_or_eq_zero, and_assoc]

set_option maxRecDepth 100000 in
theorem byte_clear_low (x : Nat) :
    ((x % 256) &&& bit_not INPUT_CUR_MSK) % 256 = (x % 256) &&& 0xF0 := by
  have : ∀ y < 256, (y &&& bit_not INPUT_CUR_MSK) % 256 = y &&& 0xF0 := by decide
  exact this _ (Nat.mod_lt _ (by norm_num))

set_option maxRecDepth 100000 in
/-- A code below 16 lands in the low nibble and the upper four bits are kept. -/
theorem usb_ctrl_with_code_nibbles (u c : Nat) (hc : c < 16) :
    usb_ctrl_with_code u c &&& 0x0F = c ∧
    usb_ctrl_with_code u c &&& 0xF0 = u % 256 &&& 0xF0 := by
  have : ∀ y < 256, ∀ d < 16, (((y &&& 0xF0) ||| d) % 256) &&& 0x0F = d ∧
      (((y &&& 0xF0) ||| d) % 256) &&& 0xF0 = y &&& 0xF0 := by decide
  exact this _ (Nat.mod_lt _ (by norm_num)) c hc

theorem set_input_current_eq (s : Sys) (c : Nat) :
    rk818_cg_set_input_current s c =
      { s with
        regs := fun r =>
          if r = Reg.RK818_USB_CTRL_REG then
            usb_ctrl_with_code (s.regs Reg.RK818_USB_CTRL_REG)
              (if s.cg.pdata.virtual_power ≠ 0 then s.cg.chrg_input else c)
          else s.regs r
        log := s.log ++ [Effect.reg_write Reg.RK818_USB_CTRL_REG
          (usb_ctrl_with_code (s.regs Reg.RK818_USB_CTRL_REG)
            (if s.cg.pdata.virtual_power ≠ 0 then s.cg.chrg_input else c))] } := by
  simp only [rk818_cg_set_input_current, rk818_reg_write, rk818_reg_read, byte_clear_low,
    usb_ctrl_with_code, Nat.mod_mod]

/-- The `switch` statement never touches the SOC register. -/
theorem switch_soc (s : Sys) (charger : charger_t) :
    (set_chrg_param_switch s charger).regs Reg.RK818_SOC_REG = s.regs Reg.RK818_SOC_REG := by
  cases charger <;>
    simp only [set_chrg_param_switch, set_input_current_eq, power_supply_changed,
      rk818_reg_read] <;>
    (repeat' split) <;> first | rfl | contradiction

/-- What follows the `switch` statement changes the status and the log only. -/
theorem set_chrg_param_after_switch (s : Sys) (charger : charger_t) :
    (rk818_cg_set_chrg_param s charger).cg.prop_status =
      (if rk818_cg_online (set_chrg_param_switch s charger) ≠ 0 ∧
          s.regs Reg.RK818_SOC_REG = 100 then POWER_SUPPLY_STATUS_FULL
        else (set_chrg_param_switch s charger).cg.prop_status) ∧
    (rk818_cg_set_chrg_param s charger).cg.ac_in = (set_chrg_param_switch s charger).cg.ac_in ∧
    (rk818_cg_set_chrg_param s charger).cg.usb_in =
      (set_chrg_param_switch s charger).cg.usb_in ∧
    (rk818_cg_set_chrg_param s charger).cg.dc_in = (set_chrg_param_switch s charger).cg.dc_in ∧
    (rk818_cg_set_chrg_param s charger).cg.otg_in =
      (set_chrg_param_switch s charger).cg.otg_in ∧
    (rk818_cg_set_chrg_param s charger).regs = (set_chrg_param_switch s charger).regs ∧
    (rk818_cg_set_chrg_param s charger).log =
      (set_chrg_param_switch s charger).log ++
        finish_sig_rearm (set_chrg_param_switch s charger) := by
  have hsoc := switch_soc s charger
  unfold rk818_cg_set_chrg_param finish_sig_rearm
  simp only [rk818_cg_get_dsoc, rk818_reg_read, hsoc]
  generalize set_chrg_param_switch s charger = sw
  by_cases h1 : rk818_cg_online sw ≠ 0 ∧ s.regs Reg.RK818_SOC_REG = 100 <;>
    by_cases h2 : sw.cg.finish_sig_wq = true <;> simp [h1, h2]

/-! ## Charge-source state machine: claims -/

/-- C6. Full override: for every prior state and every `charger_t` event
(the unknown one included), if after the per-event update at least one of
`ac_in`, `usb_in`, `dc_in` is set and the SOC register reads 100, the resulting
`prop_status` is Full, whatever the per-event branch assigned. -/
theorem full_override (s : Sys) (charger : charger_t)
    (hsrc : (set_chrg_param_switch s charger).cg.ac_in ≠ 0 ∨
      (set_chrg_param_switch s charger).cg.usb_in ≠ 0 ∨
      (set_chrg_param_switch s charger).cg.dc_in ≠ 0)
    (hsoc : rk818_reg_read s Reg.RK818_SOC_REG = 100) :
    (rk818_cg_set_chrg_param s charger).cg.prop_status = POWER_SUPPLY_STATUS_FULL := by
  have hon : rk818_cg_online (set_chrg_param_switch s charger) ≠ 0 := by
    intro h0
    obtain ⟨ha, hu, hd⟩ := (online_eq_zero _).mp h0
    rcases hsrc with h | h | h
    · exact h ha
    · exact h hu
    · exact h hd
  have hsoc2 : s.regs Reg.RK818_SOC_REG = 100 := hsoc
  rw [(set_chrg_param_after_switch s charger).1]
  simp only [hon, hsoc2, ne_eq, not_false_eq_true, and_self, if_true]

/-- Witness for C6: from all flags clear and status Discharging with capacity
100, a DC arrival yields status Full, not Charging. -/
theorem full_override_witness :
    sys_init.cg.ac_in = 0 ∧ sys_init.cg.usb_in = 0 ∧ sys_init.cg.dc_in = 0 ∧
    sys_init.cg.prop_status = POWER_SUPPLY_STATUS_DISCHARGING ∧
    (rk818_cg_set_chrg_param { sys_init with regs := regs_with 100 0 0 }
      charger_t.DC_TYPE_DC_CHARGER).cg.prop_status = POWER_SUPPLY_STATUS_FULL ∧
    POWER_SUPPLY_STATUS_FULL ≠ POWER_SUPPLY_STATUS_CHARGING :=
  ⟨rfl, rfl, rfl, rfl,
   full_override { sys_init with regs := regs_with 100 0 0 } charger_t.DC_TYPE_DC_CHARGER
     (Or.inr (Or.inr (by decide))) rfl,
   by decide⟩

/-- C7. NoSource transition with DC precedence: for every prior state the
`USB_TYPE_NONE_CHARGER` event clears `usb_in` and `ac_in` and leaves `dc_in` and
`otg_in` unchanged.  With `dc_in` set nothing is written (the register file is
unchanged, only the two notifications and the re-arm are logged) and the status
is unchanged unless the capacity-100 override makes it Full.  With `dc_in`
clear the status becomes Discharging and the input-current register is written;
in non-virtual mode the low nibble receives the 450 mA code 0 and the upper
four bits are kept. -/
theorem nosource_transition (s : Sys) :
    (rk818_cg_set_chrg_param s charger_t.USB_TYPE_NONE_CHARGER).cg.usb_in = 0 ∧
    (rk818_cg_set_chrg_param s charger_t.USB_TYPE_NONE_CHARGER).cg.ac_in = 0 ∧
    (rk818_cg_set_chrg_param s charger_t.USB_TYPE_NONE_CHARGER).cg.dc_in = s.cg.dc_in ∧
    (rk818_cg_set_chrg_param s charger_t.USB_TYPE_NONE_CHARGER).cg.otg_in = s.cg.otg_in ∧
    (s.cg.dc_in ≠ 0 →
      (rk818_cg_set_chrg_param s charger_t.USB_TYPE_NONE_CHARGER).regs = s.regs ∧
      (rk818_cg_set_chrg_param s charger_t.USB_TYPE_NONE_CHARGER).log =
        s.log ++ psy_changed_both ++ finish_sig_rearm s ∧
      (rk818_cg_set_chrg_param s charger_t.USB_TYPE_NONE_CHARGER).cg.prop_status =
        (if s.regs Reg.RK818_SOC_REG = 100 then POWER_SUPPLY_STATUS_FULL
          else s.cg.prop_status)) ∧
    (s.cg.dc_in = 0 →
      (rk818_cg_set_chrg_param s charger_t.USB_TYPE_NONE_CHARGER).cg.prop_status =
        POWER_SUPPLY_STATUS_DISCHARGING ∧
      (rk818_cg_set_chrg_param s charger_t.USB_TYPE_NONE_CHARGER).regs Reg.RK818_USB_CTRL_REG =
        usb_ctrl_with_code (s.regs Reg.RK818_USB_CTRL_REG)
          (if s.cg.pdata.virtual_power ≠ 0 then s.cg.chrg_input else INPUT_CUR450MA) ∧
      (rk818_cg_set_chrg_param s charger_t.USB_TYPE_NONE_CHARGER).log =
        s.log ++ [Effect.reg_write Reg.RK818_USB_CTRL_REG
          (usb_ctrl_with_code (s.regs Reg.RK818_USB_CTRL_REG)
            (if s.cg.pdata.virtual_power ≠ 0 then s.cg.chrg_input else INPUT_CUR450MA))] ++
          psy_changed_both ++ finish_sig_rearm s ∧
      (s.cg.pdata.virtual_power = 0 →
        (rk818_cg_set_chrg_param s charger_t.USB_TYPE_NONE_CHARGER).regs
            Reg.RK818_USB_CTRL_REG &&& 0x0F = INPUT_CUR450MA ∧
        (rk818_cg_set_chrg_param s charger_t.USB_TYPE_NONE_CHARGER).regs
            Reg.RK818_USB_CTRL_REG &&& 0xF0 = s.regs Reg.RK818_USB_CTRL_REG % 256 &&& 0xF0)) := by
  obtain ⟨h1, h2, h3, h4, h5, h6, h7⟩ :=
    set_chrg_param_after_switch s charger_t.USB_TYPE_NONE_CHARGER
  rw [h1, h2, h3, h4, h5, h6, h7]
  by_cases hdc : s.cg.dc_in = 0
  · have hnib := usb_ctrl_with_code_nibbles (s.regs Reg.RK818_USB_CTRL_REG) INPUT_CUR450MA
      (by decide)
    simp [set_chrg_param_switch, set_input_current_eq, power_supply_changed, hdc,
      online_eq_zero, finish_sig_rearm, psy_changed_both]
    intro hv
    simpa [hv] using hnib
  · simp [set_chrg_param_switch, power_supply_changed, hdc, online_eq_zero, finish_sig_rearm,
      psy_changed_both]

/-- Witness for C7: with DC and USB present (capacity 50) the event clears
`usb_in`, writes nothing and keeps status Charging; with no source at all it
sets Discharging and leaves code 0 in the low nibble of the register. -/
theorem nosource_transition_witness :
    ((rk818_cg_set_chrg_param sys_dc_usb charger_t.USB_TYPE_NONE_CHARGER).regs =
        sys_dc_usb.regs ∧
      (rk818_cg_set_chrg_param sys_dc_usb charger_t.USB_TYPE_NONE_CHARGER).log =
        [Effect.power_supply_changed Psy.usb_psy, Effect.power_supply_changed Psy.ac_psy,
          Effect.queue_finish_sig_work 1000] ∧
      (rk818_cg_set_chrg_param sys_dc_usb charger_t.USB_TYPE_NONE_CHARGER).cg.prop_status =
        POWER_SUPPLY_STATUS_CHARGING) ∧
    ((rk818_cg_set_chrg_param { sys_init with regs := regs_with 50 0 0x37 }
        charger_t.USB_TYPE_NONE_CHARGER).cg.prop_status = POWER_SUPPLY_STATUS_DISCHARGING ∧
      (rk818_cg_set_chrg_param { sys_init with regs := regs_with 50 0 0x37 }
        charger_t.USB_TYPE_NONE_CHARGER).regs Reg.RK818_USB_CTRL_REG = 0x30) :=
  ⟨(nosource_transition sys_dc_usb).2.2.2.2.1 (by decide),
   ((nosource_transition { sys_init with regs := regs_with 50 0 0x37 }).2.2.2.2.2 rfl).1,
   ((nosource_transition { sys_init with regs := regs_with 50 0 0x37 }).2.2.2.2.2 rfl).2.1⟩

/-- C8 as stated fails in virtual-power mode: on a DC departure with no plug
present the register receives the configured code `cg->chrg_input` (7, the
2000 mA entry), not the 450 mA code 0. -/
theorem dc_departure_virtual_power_code :
    (rk818_reg_read sys_virtual Reg.RK818_VB_MON_REG % 256) &&& PLUG_IN_STS = 0 ∧
    (rk818_cg_set_chrg_param sys_virtual charger_t.DC_TYPE_NONE_CHARGER).regs
      Reg.RK818_USB_CTRL_REG = 7 ∧
    (rk818_cg_set_chrg_param sys_virtual charger_t.DC_TYPE_NONE_CHARGER).regs
      Reg.RK818_USB_CTRL_REG &&& 0x0F ≠ INPUT_CUR450MA ∧
    (rk818_cg_set_chrg_param sys_virtual charger_t.DC_TYPE_NONE_CHARGER).log =
      [Effect.reg_write Reg.RK818_USB_CTRL_REG 7, Effect.power_supply_changed Psy.usb_psy,
        Effect.power_supply_changed Psy.ac_psy, Effect.queue_finish_sig_work 1000] ∧
    chrg_cur_input_array.getD 7 0 = 2000 := by
  decide

/-- C8 (amended). DC departure: for every prior state the
`DC_TYPE_NONE_CHARGER` event clears `dc_in` and then, before the capacity-100
override: (a) if the live RK818_VB_MON_REG has PLUG_IN_STS clear it clears
`ac_in` and `usb_in`, sets Discharging and writes the input-current register;
(b) otherwise, if `usb_in` was set, it writes the input-current register and
sets Charging, leaving `usb_in` and `ac_in` unchanged; (c) otherwise it leaves
`ac_in`, `usb_in`, `prop_status` and the register file unchanged.  The write
puts into the low nibble the 450 mA code 0 in non-virtual mode and the
configured code `cg->chrg_input` in virtual-power mode. -/
theorem dc_departure_transition (s : Sys) :
    (set_chrg_param_switch s charger_t.DC_TYPE_NONE_CHARGER).cg.dc_in = 0 ∧
    (rk818_cg_set_chrg_param s charger_t.DC_TYPE_NONE_CHARGER).cg.dc_in = 0 ∧
    ((rk818_reg_read s Reg.RK818_VB_MON_REG % 256) &&& PLUG_IN_STS = 0 →
      (set_chrg_param_switch s charger_t.DC_TYPE_NONE_CHARGER).cg.ac_in = 0 ∧
      (set_chrg_param_switch s charger_t.DC_TYPE_NONE_CHARGER).cg.usb_in = 0 ∧
      (set_chrg_param_switch s charger_t.DC_TYPE_NONE_CHARGER).cg.prop_status =
        POWER_SUPPLY_STATUS_DISCHARGING ∧
      (set_chrg_param_switch s charger_t.DC_TYPE_NONE_CHARGER).regs Reg.RK818_USB_CTRL_REG =
        usb_ctrl_with_code (s.regs Reg.RK818_USB_CTRL_REG)
          (if s.cg.pdata.virtual_power ≠ 0 then s.cg.chrg_input else INPUT_CUR450MA) ∧
      (set_chrg_param_switch s charger_t.DC_TYPE_NONE_CHARGER).log =
        s.log ++ [Effect.reg_write Reg.RK818_USB_CTRL_REG
          (usb_ctrl_with_code (s.regs Reg.RK818_USB_CTRL_REG)
            (if s.cg.pdata.virtual_power ≠ 0 then s.cg.chrg_input else INPUT_CUR450MA))] ++
          psy_changed_both) ∧
    ((rk818_reg_read s Reg.RK818_VB_MON_REG % 256) &&& PLUG_IN_STS ≠ 0 → s.cg.usb_in ≠ 0 →
      (set_chrg_param_switch s charger_t.DC_TYPE_NONE_CHARGER).cg.ac_in = s.cg.ac_in ∧
      (set_chrg_param_switch s charger_t.DC_TYPE_NONE_CHARGER).cg.usb_in = s.cg.usb_in ∧
      (set_chrg_param_switch s charger_t.DC_TYPE_NONE_CHARGER).cg.prop_status =
        POWER_SUPPLY_STATUS_CHARGING ∧
      (set_chrg_param_switch s charger_t.DC_TYPE_NONE_CHARGER).regs Reg.RK818_USB_CTRL_REG =
        usb_ctrl_with_code (s.regs Reg.RK818_USB_CTRL_REG)
          (if s.cg.pdata.virtual_power ≠ 0 then s.cg.chrg_input else INPUT_CUR450MA) ∧
      (set_chrg_param_switch s charger_t.DC_TYPE_NONE_CHARGER).log =
        s.log ++ [Effect.reg_write Reg.RK818_USB_CTRL_REG
          (usb_ctrl_with_code (s.regs Reg.RK818_USB_CTRL_REG)
            (if s.cg.pdata.virtual_power ≠ 0 then s.cg.chrg_input else INPUT_CUR450MA))] ++
          psy_changed_both) ∧
    ((rk818_reg_read s Reg.RK818_VB_MON_REG % 256) &&& PLUG_IN_STS ≠ 0 → s.cg.usb_in = 0 →
      (set_chrg_param_switch s charger_t.DC_TYPE_NONE_CHARGER).cg.ac_in = s.cg.ac_in ∧
      (set_chrg_param_switch s charger_t.DC_TYPE_NONE_CHARGER).cg.usb_in = s.cg.usb_in ∧
      (set_chrg_param_switch s charger_t.DC_TYPE_NONE_CHARGER).cg.prop_status =
        s.cg.prop_status ∧
      (set_chrg_param_switch s charger_t.DC_TYPE_NONE_CHARGER).regs = s.regs ∧
      (set_chrg_param_switch s charger_t.DC_TYPE_NONE_CHARGER).log =
        s.log ++ psy_changed_both) ∧
    (s.cg.pdata.virtual_power = 0 →
      usb_ctrl_with_code (s.regs Reg.RK818_USB_CTRL_REG)
          (if s.cg.pdata.virtual_power ≠ 0 then s.cg.chrg_input else INPUT_CUR450MA)
          &&& 0x0F = INPUT_CUR450MA ∧
      usb_ctrl_with_code (s.regs Reg.RK818_USB_CTRL_REG)
          (if s.cg.pdata.virtual_power ≠ 0 then s.cg.chrg_input else INPUT_CUR450MA)
          &&& 0xF0 = s.regs Reg.RK818_USB_CTRL_REG % 256 &&& 0xF0) := by
  have hnib := usb_ctrl_with_code_nibbles (s.regs Reg.RK818_USB_CTRL_REG) INPUT_CUR450MA
    (by decide)
  refine ⟨?_, ?_, ?_, ?_, ?_, ?_⟩
  · simp only [set_chrg_param_switch, set_input_current_eq, power_supply_changed]
    (repeat' split) <;> rfl
  · rw [(set_chrg_param_after_switch s charger_t.DC_TYPE_NONE_CHARGER).2.2.2.1]
    simp only [set_chrg_param_switch, set_input_current_eq, power_supply_changed]
    (repeat' split) <;> rfl
  · intro hp
    have hp2 : s.regs Reg.RK818_VB_MON_REG % 256 &&& PLUG_IN_STS = 0 := hp
    simp [set_chrg_param_switch, set_input_current_eq, power_supply_changed, rk818_reg_read,
      hp2, psy_changed_both]
  · intro hp hu
    have hp2 : ¬ (s.regs Reg.RK818_VB_MON_REG % 256 &&& PLUG_IN_STS = 0) := hp
    simp [set_chrg_param_switch, set_input_current_eq, power_supply_changed, rk818_reg_read,
      hp2, hu, psy_changed_both]
  · intro hp hu
    have hp2 : ¬ (s.regs Reg.RK818_VB_MON_REG % 256 &&& PLUG_IN_STS = 0) := hp
    simp [set_chrg_param_switch, power_supply_changed, rk818_reg_read,
      hp2, hu, psy_changed_both]
  · intro hv
    simpa [hv] using hnib

/-- Witness for C8: non-virtual mode, DC and USB present, plug still detected
(VB_MON = 0x40): DC departure re-applies code 0 (register 0x37 becomes 0x30) and
keeps Charging with `usb_in` set. -/
theorem dc_departure_transition_witness :
    (set_chrg_param_switch sys_dc_usb charger_t.DC_TYPE_NONE_CHARGER).cg.ac_in = 0 ∧
    (set_chrg_param_switch sys_dc_usb charger_t.DC_TYPE_NONE_CHARGER).cg.usb_in = 1 ∧
    (set_chrg_param_switch sys_dc_usb charger_t.DC_TYPE_NONE_CHARGER).cg.prop_status =
      POWER_SUPPLY_STATUS_CHARGING ∧
    (set_chrg_param_switch sys_dc_usb charger_t.DC_TYPE_NONE_CHARGER).regs
      Reg.RK818_USB_CTRL_REG = 0x30 ∧
    (set_chrg_param_switch sys_dc_usb charger_t.DC_TYPE_NONE_CHARGER).log =
      [Effect.reg_write Reg.RK818_USB_CTRL_REG 0x30, Effect.power_supply_changed Psy.usb_psy,
        Effect.power_supply_changed Psy.ac_psy] :=
  (dc_departure_transition sys_dc_usb).2.2.2.1 (by decide) (by decide)

/-- C9. AC and CDP transitions: in non-virtual mode, for every prior state
(whatever `dc_in` is), `USB_TYPE_AC_CHARGER` and `USB_TYPE_CDP_CHARGER` both
set `ac_in = 1`, `usb_in = 0` and status Charging before the capacity-100
override, and keep `dc_in`; AC writes the configured code `cg->chrg_input` and
CDP the code `INPUT_CUR1500MA` into the low nibble of RK818_USB_CTRL_REG
(upper four bits kept); `INPUT_CUR1500MA` indexes the 1500 mA entry of
`chrg_cur_input_array` and `INPUT_CUR450MA` the 450 mA entry. -/
theorem ac_cdp_transition (s : Sys) (hv : s.cg.pdata.virtual_power = 0) :
    ((rk818_cg_set_chrg_param s charger_t.USB_TYPE_AC_CHARGER).cg.ac_in = 1 ∧
      (rk818_cg_set_chrg_param s charger_t.USB_TYPE_AC_CHARGER).cg.usb_in = 0 ∧
      (rk818_cg_set_chrg_param s charger_t.USB_TYPE_AC_CHARGER).cg.dc_in = s.cg.dc_in ∧
      (set_chrg_param_switch s charger_t.USB_TYPE_AC_CHARGER).cg.prop_status =
        POWER_SUPPLY_STATUS_CHARGING ∧
      (rk818_cg_set_chrg_param s charger_t.USB_TYPE_AC_CHARGER).cg.prop_status =
        (if s.regs Reg.RK818_SOC_REG = 100 then POWER_SUPPLY_STATUS_FULL
          else POWER_SUPPLY_STATUS_CHARGING) ∧
      (rk818_cg_set_chrg_param s charger_t.USB_TYPE_AC_CHARGER).regs Reg.RK818_USB_CTRL_REG =
        usb_ctrl_with_code (s.regs Reg.RK818_USB_CTRL_REG) s.cg.chrg_input ∧
      (rk818_cg_set_chrg_param s charger_t.USB_TYPE_AC_CHARGER).log =
        s.log ++ [Effect.reg_write Reg.RK818_USB_CTRL_REG
          (usb_ctrl_with_code (s.regs Reg.RK818_USB_CTRL_REG) s.cg.chrg_input)] ++
          psy_changed_both ++ finish_sig_rearm s ∧
      (s.cg.chrg_input < 16 →
        (rk818_cg_set_chrg_param s charger_t.USB_TYPE_AC_CHARGER).regs
            Reg.RK818_USB_CTRL_REG &&& 0x0F = s.cg.chrg_input ∧
        (rk818_cg_set_chrg_param s charger_t.USB_TYPE_AC_CHARGER).regs
            Reg.RK818_USB_CTRL_REG &&& 0xF0 = s.regs Reg.RK818_USB_CTRL_REG % 256 &&& 0xF0)) ∧
    ((rk818_cg_set_chrg_param s charger_t.USB_TYPE_CDP_CHARGER).cg.ac_in = 1 ∧
      (rk818_cg_set_chrg_param s charger_t.USB_TYPE_CDP_CHARGER).cg.usb_in = 0 ∧
      (rk818_cg_set_chrg_param s charger_t.USB_TYPE_CDP_CHARGER).cg.dc_in = s.cg.dc_in ∧
      (set_chrg_param_switch s charger_t.USB_TYPE_CDP_CHARGER).cg.prop_status =
        POWER_SUPPLY_STATUS_CHARGING ∧
      (rk818_cg_set_chrg_param s charger_t.USB_TYPE_CDP_CHARGER).cg.prop_status =
        (if s.regs Reg.RK818_SOC_REG = 100 then POWER_SUPPLY_STATUS_FULL
          else POWER_SUPPLY_STATUS_CHARGING) ∧
      (rk818_cg_set_chrg_param s charger_t.USB_TYPE_CDP_CHARGER).regs Reg.RK818_USB_CTRL_REG =
        usb_ctrl_with_code (s.regs Reg.RK818_USB_CTRL_REG) INPUT_CUR1500MA ∧
      (rk818_cg_set_chrg_param s charger_t.USB_TYPE_CDP_CHARGER).log =
        s.log ++ [Effect.reg_write Reg.RK818_USB_CTRL_REG
          (usb_ctrl_with_code (s.regs Reg.RK818_USB_CTRL_REG) INPUT_CUR1500MA)] ++
          psy_changed_both ++ finish_sig_rearm s ∧
      (rk818_cg_set_chrg_param s charger_t.USB_TYPE_CDP_CHARGER).regs
          Reg.RK818_USB_CTRL_REG &&& 0x0F = INPUT_CUR1500MA ∧
      (rk818_cg_set_chrg_param s charger_t.USB_TYPE_CDP_CHARGER).regs
          Reg.RK818_USB_CTRL_REG &&& 0xF0 = s.regs Reg.RK818_USB_CTRL_REG % 256 &&& 0xF0) ∧
    chrg_cur_input_array.getD INPUT_CUR1500MA 0 = 1500 ∧
    chrg_cur_input_array.getD INPUT_CUR450MA 0 = 450 := by
  refine ⟨?_, ?_, by decide, by decide⟩
  · obtain ⟨h1, h2, h3, h4, _, h6, h7⟩ :=
      set_chrg_param_after_switch s charger_t.USB_TYPE_AC_CHARGER
    rw [h1, h2, h3, h4, h6, h7]
    simp [set_chrg_param_switch, set_input_current_eq, power_supply_changed, hv,
      online_eq_zero, finish_sig_rearm, psy_changed_both]
    intro hc
    exact usb_ctrl_with_code_nibbles (s.regs Reg.RK818_USB_CTRL_REG) s.cg.chrg_input hc
  · have hnib := usb_ctrl_with_code_nibbles (s.regs Reg.RK818_USB_CTRL_REG) INPUT_CUR1500MA
      (by decide)
    obtain ⟨h1, h2, h3, h4, _, h6, h7⟩ :=
      set_chrg_param_after_switch s charger_t.USB_TYPE_CDP_CHARGER
    rw [h1, h2, h3, h4, h6, h7]
    simp [set_chrg_param_switch, set_input_current_eq, power_supply_changed, hv,
      online_eq_zero, finish_sig_rearm, psy_changed_both]
    exact hnib

/-- Witness for C9: from the initial state with DC present and register 0x30,
AC yields `ac_in = 1`, `usb_in = 0`, Charging and register 0x37 (code 7); CDP
yields register 0x35 (code 5, 1500 mA). -/
theorem ac_cdp_transition_witness :
    sys_dc_usb.cg.pdata.virtual_power = 0 ∧
    (rk818_cg_set_chrg_param sys_dc_usb charger_t.USB_TYPE_AC_CHARGER).cg.ac_in = 1 ∧
    (rk818_cg_set_chrg_param sys_dc_usb charger_t.USB_TYPE_AC_CHARGER).cg.usb_in = 0 ∧
    (rk818_cg_set_chrg_param sys_dc_usb charger_t.USB_TYPE_AC_CHARGER).cg.prop_status =
      POWER_SUPPLY_STATUS_CHARGING ∧
    (rk818_cg_set_chrg_param sys_dc_usb charger_t.USB_TYPE_AC_CHARGER).regs
      Reg.RK818_USB_CTRL_REG = 0x37 ∧
    (rk818_cg_set_chrg_param sys_dc_usb charger_t.USB_TYPE_CDP_CHARGER).regs
      Reg.RK818_USB_CTRL_REG = 0x35 :=
  ⟨rfl,
   (ac_cdp_transition sys_dc_usb rfl).1.1,
   (ac_cdp_transition sys_dc_usb rfl).1.2.1,
   (ac_cdp_transition sys_dc_usb rfl).1.2.2.2.2.1,
   (ac_cdp_transition sys_dc_usb rfl).1.2.2.2.2.2.1,
   (ac_cdp_transition sys_dc_usb rfl).2.1.2.2.2.2.2.1⟩

/-! ## OTG supply controller -/

theorem update_bits_set (x m : Nat) : ((x &&& bit_not m) ||| (m &&& m)) &&& m = m := by
  apply Nat.eq_of_testBit_eq
  intro i
  simp only [Nat.testBit_and, Nat.testBit_or, bit_not, Nat.testBit_xor]
  cases h : m.testBit i <;> simp

theorem update_bits_clear (x m : Nat) (hm : m < 2 ^ 32) :
    ((x &&& bit_not m) ||| (0 &&& m)) &&& m = 0 := by
  apply Nat.eq_of_testBit_eq
  intro i
  have h32 : (0xFFFFFFFF : Nat) = 2 ^ 32 - 1 := by norm_num
  simp only [Nat.testBit_and, Nat.testBit_or, bit_not, Nat.testBit_xor, Nat.zero_testBit, h32,
    Nat.testBit_two_pow_sub_one]
  cases h : m.testBit i
  · simp
  · have hi : i < 32 := by
      by_contra hc
      have : 2 ^ 32 ≤ 2 ^ i := Nat.pow_le_pow_right (by norm_num) (by omega)
      have := Nat.testBit_lt_two_pow (lt_of_lt_of_le hm this)
      simp [h] at this
    simp [hi]

/-- C10. OTG controller idempotence, for any value of the header constant
`OTG_EN_MASK` (a `u8` argument): power-on from `otg_in = 0` sets `otg_in = 1`,
disables the plug-in and the plug-out IRQ once each and sets the enable bits of
RK818_DCDC_EN_REG with one register update; a second power-on changes nothing
at all, so two consecutive calls leave exactly those three effects.  Power-off
with `otg_in = 0` changes nothing; power-off with `otg_in` set clears `otg_in`,
re-enables both IRQs and clears the enable bits with one register update. -/
theorem otg_state_idempotent (OTG_EN_MASK : Nat) (s : Sys) :
    (s.cg.otg_in = 0 →
      (rk818_cg_set_otg_state OTG_EN_MASK s bc_port_type.USB_OTG_POWER_ON).cg.otg_in = 1 ∧
      (rk818_cg_set_otg_state OTG_EN_MASK s bc_port_type.USB_OTG_POWER_ON).log =
        s.log ++ [Effect.disable_irq s.cg.plugin_irq, Effect.disable_irq s.cg.plugout_irq,
          Effect.reg_update_bits Reg.RK818_DCDC_EN_REG (OTG_EN_MASK % 256)
            (OTG_EN_MASK % 256)] ∧
      (rk818_cg_set_otg_state OTG_EN_MASK s bc_port_type.USB_OTG_POWER_ON).regs
          Reg.RK818_DCDC_EN_REG =
        (s.regs Reg.RK818_DCDC_EN_REG &&& bit_not (OTG_EN_MASK % 256)) |||
          (OTG_EN_MASK % 256 &&& OTG_EN_MASK % 256) ∧
      (rk818_cg_set_otg_state OTG_EN_MASK s bc_port_type.USB_OTG_POWER_ON).regs
          Reg.RK818_DCDC_EN_REG &&& (OTG_EN_MASK % 256) = OTG_EN_MASK % 256 ∧
      rk818_cg_set_otg_state OTG_EN_MASK
          (rk818_cg_set_otg_state OTG_EN_MASK s bc_port_type.USB_OTG_POWER_ON)
          bc_port_type.USB_OTG_POWER_ON =
        rk818_cg_set_otg_state OTG_EN_MASK s bc_port_type.USB_OTG_POWER_ON ∧
      (rk818_cg_set_otg_state OTG_EN_MASK
          (rk818_cg_set_otg_state OTG_EN_MASK s bc_port_type.USB_OTG_POWER_ON)
          bc_port_type.USB_OTG_POWER_ON).log =
        s.log ++ [Effect.disable_irq s.cg.plugin_irq, Effect.disable_irq s.cg.plugout_irq,
          Effect.reg_update_bits Reg.RK818_DCDC_EN_REG (OTG_EN_MASK % 256)
            (OTG_EN_MASK % 256)]) ∧
    (s.cg.otg_in ≠ 0 →
      rk818_cg_set_otg_state OTG_EN_MASK s bc_port_type.USB_OTG_POWER_ON = s) ∧
    (s.cg.otg_in = 0 →
      rk818_cg_set_otg_state OTG_EN_MASK s bc_port_type.USB_OTG_POWER_OFF = s) ∧
    (s.cg.otg_in ≠ 0 →
      (rk818_cg_set_otg_state OTG_EN_MASK s bc_port_type.USB_OTG_POWER_OFF).cg.otg_in = 0 ∧
      (rk818_cg_set_otg_state OTG_EN_MASK s bc_port_type.USB_OTG_POWER_OFF).log =
        s.log ++ [Effect.enable_irq s.cg.plugin_irq, Effect.enable_irq s.cg.plugout_irq,
          Effect.reg_update_bits Reg.RK818_DCDC_EN_REG (OTG_EN_MASK % 256) 0] ∧
      (rk818_cg_set_otg_state OTG_EN_MASK s bc_port_type.USB_OTG_POWER_OFF).regs
          Reg.RK818_DCDC_EN_REG &&& (OTG_EN_MASK % 256) = 0) := by
  have hset := update_bits_set (s.regs Reg.RK818_DCDC_EN_REG) (OTG_EN_MASK % 256)
  have hclr := update_bits_clear (s.regs Reg.RK818_DCDC_EN_REG) (OTG_EN_MASK % 256)
    (lt_trans (Nat.mod_lt _ (by norm_num)) (by norm_num))
  refine ⟨?_, ?_, ?_, ?_⟩
  · intro h0
    simp only [rk818_cg_set_otg_state, h0, ne_eq, not_true_eq_false, if_false, disable_irq,
      rk818_reg_set_bits, regmap_update_bits, Nat.mod_mod, if_true, List.append_assoc,
      List.singleton_append, one_ne_zero, not_false_eq_true]
    exact ⟨trivial, rfl, trivial, hset, trivial, rfl⟩
  · intro h1
    simp only [rk818_cg_set_otg_state, h1, ne_eq, not_false_eq_true, if_true]
  · intro h0
    simp only [rk818_cg_set_otg_state, h0, ne_eq, not_true_eq_false, not_false_eq_true, if_true]
  · intro h1
    simp only [rk818_cg_set_otg_state, h1, ne_eq, not_false_eq_true, not_true_eq_false,
      if_false, enable_irq, rk818_reg_clear_bits, regmap_update_bits, Nat.mod_mod, if_true,
      List.append_assoc, List.singleton_append]
    exact ⟨trivial, rfl, hclr⟩

/-- Witness for C10, with `OTG_EN_MASK = 0x80`: two consecutive power-on calls
from `otg_in = 0` leave one disable per IRQ and one register update; power-off
then clears the bit again. -/
theorem otg_state_idempotent_witness :
    (rk818_cg_set_otg_state 0x80
        (rk818_cg_set_otg_state 0x80 sys_init bc_port_type.USB_OTG_POWER_ON)
        bc_port_type.USB_OTG_POWER_ON).log =
      [Effect.disable_irq 40, Effect.disable_irq 41,
        Effect.reg_update_bits Reg.RK818_DCDC_EN_REG 0x80 0x80] ∧
    (rk818_cg_set_otg_state 0x80 sys_init bc_port_type.USB_OTG_POWER_ON).regs
      Reg.RK818_DCDC_EN_REG = 0x80 ∧
    rk818_cg_set_otg_state 0x80 sys_init bc_port_type.USB_OTG_POWER_OFF = sys_init ∧
    (rk818_cg_set_otg_state 0x80
        (rk818_cg_set_otg_state 0x80 sys_init bc_port_type.USB_OTG_POWER_ON)
        bc_port_type.USB_OTG_POWER_OFF).regs Reg.RK818_DCDC_EN_REG &&& (0x80 % 256) = 0 :=
  ⟨((otg_state_idempotent 0x80 sys_init).1 rfl).2.2.2.2.2,
   ((otg_state_idempotent 0x80 sys_init).1 rfl).2.2.1,
   (otg_state_idempotent 0x80 sys_init).2.2.1 rfl,
   ((otg_state_idempotent 0x80
      (rk818_cg_set_otg_state 0x80 sys_init bc_port_type.USB_OTG_POWER_ON)).2.2.2
      (by decide)).2.2⟩

/-! ## DC detection and the OTG interlock -/

/-- What the `switch` statement leaves alone. -/
theorem switch_frame (s : Sys) (charger : charger_t) :
    (set_chrg_param_switch s charger).cg.pdata = s.cg.pdata ∧
    (set_chrg_param_switch s charger).cg.otg_in = s.cg.otg_in ∧
    (set_chrg_param_switch s charger).cg.plugin_irq = s.cg.plugin_irq ∧
    (set_chrg_param_switch s charger).cg.plugout_irq = s.cg.plugout_irq ∧
    (set_chrg_param_switch s charger).cg.plugin_trigger = s.cg.plugin_trigger ∧
    (set_chrg_param_switch s charger).cg.plugout_trigger = s.cg.plugout_trigger ∧
    (set_chrg_param_switch s charger).cg.chrg_input = s.cg.chrg_input ∧
    (∀ r, r ≠ Reg.RK818_USB_CTRL_REG → (set_chrg_param_switch s charger).regs r = s.regs r) := by
  have hreg : ∀ (v : Nat) (r : Reg), r ≠ Reg.RK818_USB_CTRL_REG →
      (if r = Reg.RK818_USB_CTRL_REG then v else s.regs r) = s.regs r := by
    intro v r hr
    simp [hr]
  cases charger <;>
    simp only [set_chrg_param_switch, set_input_current_eq, power_supply_changed,
      rk818_reg_read] <;>
    (repeat' split) <;>
    simp only [true_and, and_true, implies_true] <;>
    first
    | trivial
    | exact hreg _

/-- What `rk818_cg_set_chrg_param` leaves alone. -/
theorem set_chrg_param_frame (s : Sys) (charger : charger_t) :
    (rk818_cg_set_chrg_param s charger).cg.pdata = s.cg.pdata ∧
    (rk818_cg_set_chrg_param s charger).cg.otg_in = s.cg.otg_in ∧
    (rk818_cg_set_chrg_param s charger).cg.plugin_irq = s.cg.plugin_irq ∧
    (rk818_cg_set_chrg_param s charger).cg.plugout_irq = s.cg.plugout_irq ∧
    (rk818_cg_set_chrg_param s charger).cg.plugin_trigger = s.cg.plugin_trigger ∧
    (rk818_cg_set_chrg_param s charger).cg.plugout_trigger = s.cg.plugout_trigger ∧
    (rk818_cg_set_chrg_param s charger).cg.chrg_input = s.cg.chrg_input ∧
    (∀ r, r ≠ Reg.RK818_USB_CTRL_REG → (rk818_cg_set_chrg_param s charger).regs r = s.regs r) := by
  obtain ⟨h1, h2, h3, h4, h5, h6, h7, h8⟩ := switch_frame s charger
  unfold rk818_cg_set_chrg_param
  generalize set_chrg_param_switch s charger = sw at h1 h2 h3 h4 h5 h6 h7 h8
  dsimp only
  split_ifs <;> exact ⟨h1, h2, h3, h4, h5, h6, h7, h8⟩

/-- The flag `dc_in` after each event. -/
theorem set_chrg_param_dc_in (s : Sys) (charger : charger_t) :
    (rk818_cg_set_chrg_param s charger).cg.dc_in =
      (if charger = charger_t.DC_TYPE_DC_CHARGER then 1
        else if charger = charger_t.DC_TYPE_NONE_CHARGER then 0 else s.cg.dc_in) := by
  rw [(set_chrg_param_after_switch s charger).2.2.2.1]
  cases charger <;>
    simp only [set_chrg_param_switch, set_input_current_eq, power_supply_changed,
      rk818_reg_read] <;>
    (repeat' split) <;> first | rfl | contradiction

/-- Power-off with `otg_in` set: the three effects and the cleared enable bits. -/
theorem set_otg_state_off (OTG_EN_MASK : Nat) (s : Sys) (h : s.cg.otg_in ≠ 0) :
    (rk818_cg_set_otg_state OTG_EN_MASK s bc_port_type.USB_OTG_POWER_OFF).cg.otg_in = 0 ∧
    (rk818_cg_set_otg_state OTG_EN_MASK s bc_port_type.USB_OTG_POWER_OFF).cg.dc_in =
      s.cg.dc_in ∧
    (rk818_cg_set_otg_state OTG_EN_MASK s bc_port_type.USB_OTG_POWER_OFF).log =
      s.log ++ [Effect.enable_irq s.cg.plugin_irq, Effect.enable_irq s.cg.plugout_irq,
        Effect.reg_update_bits Reg.RK818_DCDC_EN_REG (OTG_EN_MASK % 256) 0] ∧
    (rk818_cg_set_otg_state OTG_EN_MASK s bc_port_type.USB_OTG_POWER_OFF).regs
        Reg.RK818_DCDC_EN_REG &&& (OTG_EN_MASK % 256) = 0 := by
  have hclr := update_bits_clear (s.regs Reg.RK818_DCDC_EN_REG) (OTG_EN_MASK % 256)
    (lt_trans (Nat.mod_lt _ (by norm_num)) (by norm_num))
  simp only [rk818_cg_set_otg_state, h, ne_eq, not_false_eq_true, not_true_eq_false,
    if_false, enable_irq, rk818_reg_clear_bits, regmap_update_bits, Nat.mod_mod, if_true,
    List.append_assoc, List.singleton_append]
  exact ⟨trivial, trivial, rfl, hclr⟩

/-- A handler of the DC detection work that sees no adapter never changes the
OTG state: `rk818_cg_set_otg_state(USB_OTG_POWER_ON)` is reached only with
`otg_in` set, where it does nothing. -/
theorem dc_det_absent_keeps_otg (OTG_EN_MASK : Nat) (s : Sys) (gpio_valid : Bool) (level : Nat)
    (habs : rk818_cg_get_dc_state s gpio_valid level ≠ charger_t.DC_TYPE_DC_CHARGER) :
    rk818_cg_dc_det_worker OTG_EN_MASK s gpio_valid level =
      rk818_cg_set_chrg_param s charger_t.DC_TYPE_NONE_CHARGER := by
  unfold rk818_cg_dc_det_worker
  simp only [habs, if_false]
  generalize rk818_cg_set_chrg_param s charger_t.DC_TYPE_NONE_CHARGER = t
  by_cases h : t.cg.otg_in ≠ 0
  · rw [if_pos h]
    unfold rk818_cg_set_otg_state
    exact if_pos h
  · rw [if_neg h]

/-- C11 (the code departs from the claim). With `power_dc2otg` set and
`OTG_EN_MASK = 0x80`: an OTG power-on request is accepted with no DC present
(`otg_in = 1`, enable bit set); the DC arrival forces the boost off; the DC
departure then leaves it off, `otg_in = 0` and the enable bit clear, because
its `if (cg->otg_in)` tests the flag the arrival has cleared. -/
theorem dc_departure_does_not_restore_otg :
    sys_dc2otg.cg.pdata.power_dc2otg = 1 ∧ sys_dc2otg.cg.dc_in = 0 ∧
    (rk818_cg_bc_evt_worker 0x80 sys_dc2otg bc_port_type.USB_OTG_POWER_ON).cg.otg_in = 1 ∧
    (rk818_cg_bc_evt_worker 0x80 sys_dc2otg bc_port_type.USB_OTG_POWER_ON).regs
      Reg.RK818_DCDC_EN_REG = 0x80 ∧
    rk818_cg_get_dc_state
      (rk818_cg_bc_evt_worker 0x80 sys_dc2otg bc_port_type.USB_OTG_POWER_ON) true 0 =
      charger_t.DC_TYPE_DC_CHARGER ∧
    (rk818_cg_dc_det_worker 0x80
      (rk818_cg_bc_evt_worker 0x80 sys_dc2otg bc_port_type.USB_OTG_POWER_ON) true 0).cg.dc_in
      = 1 ∧
    (rk818_cg_dc_det_worker 0x80
      (rk818_cg_bc_evt_worker 0x80 sys_dc2otg bc_port_type.USB_OTG_POWER_ON) true 0).cg.otg_in
      = 0 ∧
    (rk818_cg_dc_det_worker 0x80
      (rk818_cg_dc_det_worker 0x80
        (rk818_cg_bc_evt_worker 0x80 sys_dc2otg bc_port_type.USB_OTG_POWER_ON) true 0)
      true 1).cg.dc_in = 0 ∧
    (rk818_cg_dc_det_worker 0x80
      (rk818_cg_dc_det_worker 0x80
        (rk818_cg_bc_evt_worker 0x80 sys_dc2otg bc_port_type.USB_OTG_POWER_ON) true 0)
      true 1).cg.otg_in = 0 ∧
    (rk818_cg_dc_det_worker 0x80
      (rk818_cg_dc_det_worker 0x80
        (rk818_cg_bc_evt_worker 0x80 sys_dc2otg bc_port_type.USB_OTG_POWER_ON) true 0)
      true 1).regs Reg.RK818_DCDC_EN_REG &&& 0x80 = 0 := by
  decide

/-- C12. OTG interlock on DC arrival: for every state with `otg_in` set, when
the DC detection work observes the adapter present and `power_dc2otg` is set,
the result has `dc_in = 1`, `otg_in = 0`, the OTG enable bits of
RK818_DCDC_EN_REG cleared and both plug IRQs re-enabled (after the effects of
the DC transition); when `power_dc2otg` is clear the work is the DC transition
alone and leaves `otg_in` and RK818_DCDC_EN_REG unchanged. -/
theorem dc_arrival_otg_interlock (OTG_EN_MASK : Nat) (s : Sys) (gpio_valid : Bool)
    (level : Nat)
    (hdc : rk818_cg_get_dc_state s gpio_valid level = charger_t.DC_TYPE_DC_CHARGER)
    (hotg : s.cg.otg_in ≠ 0) :
    (s.cg.pdata.power_dc2otg ≠ 0 →
      (rk818_cg_dc_det_worker OTG_EN_MASK s gpio_valid level).cg.dc_in = 1 ∧
      (rk818_cg_dc_det_worker OTG_EN_MASK s gpio_valid level).cg.otg_in = 0 ∧
      (rk818_cg_dc_det_worker OTG_EN_MASK s gpio_valid level).regs Reg.RK818_DCDC_EN_REG
        &&& (OTG_EN_MASK % 256) = 0 ∧
      (rk818_cg_dc_det_worker OTG_EN_MASK s gpio_valid level).log =
        (rk818_cg_set_chrg_param s charger_t.DC_TYPE_DC_CHARGER).log ++
          [Effect.enable_irq s.cg.plugin_irq, Effect.enable_irq s.cg.plugout_irq,
            Effect.reg_update_bits Reg.RK818_DCDC_EN_REG (OTG_EN_MASK % 256) 0]) ∧
    (s.cg.pdata.power_dc2otg = 0 →
      rk818_cg_dc_det_worker OTG_EN_MASK s gpio_valid level =
        rk818_cg_set_chrg_param s charger_t.DC_TYPE_DC_CHARGER ∧
      (rk818_cg_dc_det_worker OTG_EN_MASK s gpio_valid level).cg.dc_in = 1 ∧
      (rk818_cg_dc_det_worker OTG_EN_MASK s gpio_valid level).cg.otg_in = s.cg.otg_in ∧
      (rk818_cg_dc_det_worker OTG_EN_MASK s gpio_valid level).regs Reg.RK818_DCDC_EN_REG =
        s.regs Reg.RK818_DCDC_EN_REG) := by
  obtain ⟨f1, f2, f3, f4, _, _, _, f8⟩ := set_chrg_param_frame s charger_t.DC_TYPE_DC_CHARGER
  have fdc := set_chrg_param_dc_in s charger_t.DC_TYPE_DC_CHARGER
  simp only [if_true] at fdc
  have freg := f8 Reg.RK818_DCDC_EN_REG (by decide)
  unfold rk818_cg_dc_det_worker
  simp only [hdc, if_true]
  generalize rk818_cg_set_chrg_param s charger_t.DC_TYPE_DC_CHARGER = t at f1 f2 f3 f4 fdc freg
  have hotg2 : t.cg.otg_in ≠ 0 := by rw [f2]; exact hotg
  refine ⟨?_, ?_⟩
  · intro hp
    have hp2 : t.cg.pdata.power_dc2otg ≠ 0 := by rw [f1]; exact hp
    simp only [hotg2, hp2, ne_eq, not_false_eq_true, and_self, if_true]
    obtain ⟨o1, o2, o3, o4⟩ := set_otg_state_off OTG_EN_MASK t hotg2
    rw [f3, f4] at o3
    exact ⟨by rw [o2]; exact fdc, o1, o4, o3⟩
  · intro hp
    have hp2 : ¬ (t.cg.pdata.power_dc2otg ≠ 0) := by rw [f1]; simp [hp]
    simp only [hp2, and_false, if_false]
    exact ⟨trivial, fdc, f2, freg⟩

/-- Witness for C12, with `OTG_EN_MASK = 0x80` and the adapter seen on a valid
GPIO at the active level 0: from `otg_in = 1` with the enable bit set, on a
board with `power_dc2otg` the arrival gives `dc_in = 1`, `otg_in = 0` and
clears the bit; on a board without it `otg_in` and the register are kept. -/
theorem dc_arrival_otg_interlock_witness :
    ((rk818_cg_dc_det_worker 0x80
        (rk818_cg_set_otg_state 0x80 sys_dc2otg bc_port_type.USB_OTG_POWER_ON) true 0).cg.dc_in
        = 1 ∧
      (rk818_cg_dc_det_worker 0x80
        (rk818_cg_set_otg_state 0x80 sys_dc2otg bc_port_type.USB_OTG_POWER_ON) true 0).cg.otg_in
        = 0 ∧
      (rk818_cg_dc_det_worker 0x80
        (rk818_cg_set_otg_state 0x80 sys_dc2otg bc_port_type.USB_OTG_POWER_ON) true 0).regs
        Reg.RK818_DCDC_EN_REG &&& (0x80 % 256) = 0) ∧
    ((rk818_cg_dc_det_worker 0x80
        (rk818_cg_set_otg_state 0x80 sys_init bc_port_type.USB_OTG_POWER_ON) true 0).cg.otg_in
        = 1 ∧
      (rk818_cg_dc_det_worker 0x80
        (rk818_cg_set_otg_state 0x80 sys_init bc_port_type.USB_OTG_POWER_ON) true 0).regs
        Reg.RK818_DCDC_EN_REG = 0x80) :=
  ⟨⟨((dc_arrival_otg_interlock 0x80
        (rk818_cg_set_otg_state 0x80 sys_dc2otg bc_port_type.USB_OTG_POWER_ON) true 0
        (by decide) (by decide)).1 (by decide)).1,
    ((dc_arrival_otg_interlock 0x80
        (rk818_cg_set_otg_state 0x80 sys_dc2otg bc_port_type.USB_OTG_POWER_ON) true 0
        (by decide) (by decide)).1 (by decide)).2.1,
    ((dc_arrival_otg_interlock 0x80
        (rk818_cg_set_otg_state 0x80 sys_dc2otg bc_port_type.USB_OTG_POWER_ON) true 0
        (by decide) (by decide)).1 (by decide)).2.2.1⟩,
   ((dc_arrival_otg_interlock 0x80
        (rk818_cg_set_otg_state 0x80 sys_init bc_port_type.USB_OTG_POWER_ON) true 0
        (by decide) (by decide)).2 (by decide)).2.2.1,
   ((dc_arrival_otg_interlock 0x80
        (rk818_cg_set_otg_state 0x80 sys_init bc_port_type.USB_OTG_POWER_ON) true 0
        (by decide) (by decide)).2 (by decide)).2.2.2⟩

/-! ## Reported properties -/

/-- The USB view behaves as if `fake_offline` were initialised to 0 whenever a
source flag is set or the indeterminate content happens to be 0. -/
theorem usb_get_property_initialised (s : Sys) (psp : power_supply_property) (intval : Int)
    (g : Int) (h : rk818_cg_online s ≠ 0 ∨ g = 0) :
    rk818_cg_usb_get_property s psp intval g = rk818_cg_usb_get_property s psp intval 0 := by
  rcases h with h | h
  · unfold rk818_cg_usb_get_property
    simp only [h, ne_eq, not_false_eq_true, if_true]
  · rw [h]

/-- C13 (the code departs from the claim). In the state reached by a DC
arrival and a DC departure with the plug still detected, no source flag is set,
the status is Charging and the board is not virtual; the AC view reports
STATUS = `prop_status`, but the USB view, whose local `fake_offline` has no
initialiser, reports Discharging when that local holds 1 (and `prop_status`
when it holds 0). -/
theorem usb_status_uninitialised_fake_offline :
    sys_dc_departed.cg.ac_in = 0 ∧ sys_dc_departed.cg.usb_in = 0 ∧
    sys_dc_departed.cg.dc_in = 0 ∧ sys_dc_departed.cg.pdata.virtual_power = 0 ∧
    sys_dc_departed.cg.prop_status = POWER_SUPPLY_STATUS_CHARGING ∧
    (rk818_cg_ac_get_property sys_dc_departed
      power_supply_property.POWER_SUPPLY_PROP_STATUS 0).2.1 = POWER_SUPPLY_STATUS_CHARGING ∧
    (rk818_cg_usb_get_property sys_dc_departed
      power_supply_property.POWER_SUPPLY_PROP_STATUS 0 1).2.1 =
        POWER_SUPPLY_STATUS_DISCHARGING ∧
    (rk818_cg_usb_get_property sys_dc_departed
      power_supply_property.POWER_SUPPLY_PROP_STATUS 0 1).2.1 ≠
        (sys_dc_departed.cg.prop_status : Int) ∧
    (rk818_cg_usb_get_property sys_dc_departed
      power_supply_property.POWER_SUPPLY_PROP_STATUS 0 0).2.1 = POWER_SUPPLY_STATUS_CHARGING := by
  decide

/-! ## Suspend and resume -/

theorem testBit_bit_not (x i : Nat) :
    (bit_not x).testBit i = (decide (i < 32) ^^ x.testBit i) := by
  have h32 : (0xFFFFFFFF : Nat) = 2 ^ 32 - 1 := by norm_num
  simp only [bit_not, Nat.testBit_xor, h32, Nat.testBit_two_pow_sub_one]

theorem testBit_of_lt_32 (v i : Nat) (hv : v < 2 ^ 32) (hi : ¬ i < 32) :
    v.testBit i = false := by
  have : 2 ^ 32 ≤ 2 ^ i := Nat.pow_le_pow_right (by norm_num) (by omega)
  exact Nat.testBit_lt_two_pow (lt_of_lt_of_le hv this)

/-- Restoring the bits of `b` from the saved value `v` undoes an update of
bits inside `b`. -/
theorem update_bits_restore (v b m x : Nat) (hv : v < 2 ^ 32) (hb : b < 2 ^ 32)
    (hsub : m &&& b = m) :
    ((((v &&& bit_not m) ||| (x &&& m)) &&& bit_not b) ||| (v &&& b)) = v := by
  apply Nat.eq_of_testBit_eq
  intro i
  have hm := congrArg (fun n => n.testBit i) hsub
  simp only [Nat.testBit_and] at hm
  simp only [Nat.testBit_and, Nat.testBit_or, testBit_bit_not]
  by_cases hi : i < 32
  · simp only [hi, decide_True, Bool.true_xor]
    cases hb : b.testBit i <;> cases hmi : m.testBit i <;> cases hvi : v.testBit i <;>
      simp_all
  · have hv0 := testBit_of_lt_32 v i hv hi
    have hb0 := testBit_of_lt_32 b i hb hi
    simp [hi, hv0, hb0]

/-- The two branches of `rk818_charger_suspend`. -/
theorem suspend_eq (B S : Nat) (s : Sys) :
    rk818_charger_suspend B S s =
      (if otg_kept_in_sleep s then
        (0, rk818_reg_clear_bits
          { s with cg.sleep_set_off_reg1 := s.regs Reg.RK818_SLEEP_SET_OFF_REG1 % 256 }
          Reg.RK818_SLEEP_SET_OFF_REG1 B)
      else
        (0, rk818_reg_set_bits
          { s with cg.sleep_set_off_reg1 := s.regs Reg.RK818_SLEEP_SET_OFF_REG1 % 256 }
          Reg.RK818_SLEEP_SET_OFF_REG1 S S)) := by
  unfold rk818_charger_suspend otg_kept_in_sleep
  simp only [rk818_reg_read]
  by_cases h1 : s.cg.pdata.otg5v_suspend_enable = 0 <;>
    by_cases h2 : s.cg.otg_in = 0 <;>
    by_cases h3 : s.cg.dc_in = 0 <;>
    by_cases h4 : s.cg.pdata.power_dc2otg = 0 <;>
    simp [h1, h2, h3, h4]

/-- C14. Suspend policy, for any values of the header constants
`OTG_BOOST_SLP_OFF` and `OTG_SLP_SET_OFF` (`u8` arguments): the call saves the
current RK818_SLEEP_SET_OFF_REG1 value, returns 0 and changes none of `ac_in`,
`usb_in`, `dc_in`, `otg_in`, `prop_status`; it clears the OTG_BOOST_SLP_OFF
bits (boost kept alive) exactly when `otg5v_suspend_enable` is set, `otg_in`
is set and (`dc_in` is clear or `power_dc2otg` is clear), and sets the
OTG_SLP_SET_OFF bits in every other case. -/
theorem suspend_policy (OTG_BOOST_SLP_OFF OTG_SLP_SET_OFF : Nat) (s : Sys) :
    (rk818_charger_suspend OTG_BOOST_SLP_OFF OTG_SLP_SET_OFF s).1 = 0 ∧
    (rk818_charger_suspend OTG_BOOST_SLP_OFF OTG_SLP_SET_OFF s).2.cg.sleep_set_off_reg1 =
      s.regs Reg.RK818_SLEEP_SET_OFF_REG1 % 256 ∧
    (rk818_charger_suspend OTG_BOOST_SLP_OFF OTG_SLP_SET_OFF s).2.cg.ac_in = s.cg.ac_in ∧
    (rk818_charger_suspend OTG_BOOST_SLP_OFF OTG_SLP_SET_OFF s).2.cg.usb_in = s.cg.usb_in ∧
    (rk818_charger_suspend OTG_BOOST_SLP_OFF OTG_SLP_SET_OFF s).2.cg.dc_in = s.cg.dc_in ∧
    (rk818_charger_suspend OTG_BOOST_SLP_OFF OTG_SLP_SET_OFF s).2.cg.otg_in = s.cg.otg_in ∧
    (rk818_charger_suspend OTG_BOOST_SLP_OFF OTG_SLP_SET_OFF s).2.cg.prop_status =
      s.cg.prop_status ∧
    ((s.cg.pdata.otg5v_suspend_enable ≠ 0 ∧ s.cg.otg_in ≠ 0 ∧
        (s.cg.dc_in = 0 ∨ s.cg.pdata.power_dc2otg = 0)) →
      (rk818_charger_suspend OTG_BOOST_SLP_OFF OTG_SLP_SET_OFF s).2.log =
        s.log ++ [Effect.reg_update_bits Reg.RK818_SLEEP_SET_OFF_REG1
          (OTG_BOOST_SLP_OFF % 256) 0] ∧
      (rk818_charger_suspend OTG_BOOST_SLP_OFF OTG_SLP_SET_OFF s).2.regs
          Reg.RK818_SLEEP_SET_OFF_REG1 &&& (OTG_BOOST_SLP_OFF % 256) = 0) ∧
    (¬ (s.cg.pdata.otg5v_suspend_enable ≠ 0 ∧ s.cg.otg_in ≠ 0 ∧
        (s.cg.dc_in = 0 ∨ s.cg.pdata.power_dc2otg = 0)) →
      (rk818_charger_suspend OTG_BOOST_SLP_OFF OTG_SLP_SET_OFF s).2.log =
        s.log ++ [Effect.reg_update_bits Reg.RK818_SLEEP_SET_OFF_REG1
          (OTG_SLP_SET_OFF % 256) (OTG_SLP_SET_OFF % 256)] ∧
      (rk818_charger_suspend OTG_BOOST_SLP_OFF OTG_SLP_SET_OFF s).2.regs
          Reg.RK818_SLEEP_SET_OFF_REG1 &&& (OTG_SLP_SET_OFF % 256) =
        OTG_SLP_SET_OFF % 256) := by
  have hset := update_bits_set (s.regs Reg.RK818_SLEEP_SET_OFF_REG1) (OTG_SLP_SET_OFF % 256)
  have hclr := update_bits_clear (s.regs Reg.RK818_SLEEP_SET_OFF_REG1)
    (OTG_BOOST_SLP_OFF % 256) (lt_trans (Nat.mod_lt _ (by norm_num)) (by norm_num))
  rw [suspend_eq]
  by_cases hk : otg_kept_in_sleep s
  · have hk2 : s.cg.pdata.otg5v_suspend_enable ≠ 0 ∧ s.cg.otg_in ≠ 0 ∧
        (s.cg.dc_in = 0 ∨ s.cg.pdata.power_dc2otg = 0) := hk
    simp only [hk, if_true, rk818_reg_clear_bits, regmap_update_bits, Nat.mod_mod]
    refine ⟨trivial, trivial, trivial, trivial, trivial, trivial, trivial, ?_, ?_⟩
    · intro _
      exact ⟨trivial, hclr⟩
    · intro hn
      exact absurd hk2 hn
  · have hk2 : ¬ (s.cg.pdata.otg5v_suspend_enable ≠ 0 ∧ s.cg.otg_in ≠ 0 ∧
        (s.cg.dc_in = 0 ∨ s.cg.pdata.power_dc2otg = 0)) := hk
    simp only [hk, if_false, rk818_reg_set_bits, regmap_update_bits, Nat.mod_mod]
    refine ⟨trivial, trivial, trivial, trivial, trivial, trivial, trivial, ?_, ?_⟩
    · intro hp
      exact absurd hp hk2
    · intro _
      exact ⟨trivial, hset⟩

/-- Witness for C14, with `OTG_BOOST_SLP_OFF = 0x90` and
`OTG_SLP_SET_OFF = 0x80`: with OTG on, no DC and register 0xFF the boost bits
are cleared (0x6F); with OTG off and register 0 the OTG bit is set (0x80). -/
theorem suspend_policy_witness :
    ((rk818_charger_suspend 0x90 0x80
        { sys_init with
          cg := { cg_init with otg_in := 1 }
          regs := fun _ => 0xFF }).2.regs Reg.RK818_SLEEP_SET_OFF_REG1 = 0x6F ∧
      (rk818_charger_suspend 0x90 0x80
        { sys_init with
          cg := { cg_init with otg_in := 1 }
          regs := fun _ => 0xFF }).2.regs Reg.RK818_SLEEP_SET_OFF_REG1 &&& (0x90 % 256) = 0) ∧
    ((rk818_charger_suspend 0x90 0x80 sys_init).2.regs Reg.RK818_SLEEP_SET_OFF_REG1 = 0x80 ∧
      (rk818_charger_suspend 0x90 0x80 sys_init).2.regs Reg.RK818_SLEEP_SET_OFF_REG1
        &&& (0x80 % 256) = 0x80 % 256) :=
  ⟨⟨by decide,
    ((suspend_policy 0x90 0x80
        { sys_init with
          cg := { cg_init with otg_in := 1 }
          regs := fun _ => 0xFF }).2.2.2.2.2.2.2.1 (by decide)).2⟩,
   by decide,
   ((suspend_policy 0x90 0x80 sys_init).2.2.2.2.2.2.2.2 (by decide)).2⟩

/-- C15. Suspend/resume round trip: for every pre-suspend byte `v` of
RK818_SLEEP_SET_OFF_REG1 and every configuration and flag state,
`rk818_charger_suspend` followed by `rk818_charger_resume` leaves the register
equal to `v`.  The masks are the header's constants, parameters here; as the
driver's comments describe them (`OTG_BOOST_SLP_OFF`: "sleep boost5v and
otg5v", `OTG_SLP_SET_OFF`: "sleep otg5v"), every bit of `OTG_SLP_SET_OFF` is a
bit of `OTG_BOOST_SLP_OFF`. -/
theorem suspend_resume_round_trip (OTG_BOOST_SLP_OFF OTG_SLP_SET_OFF : Nat) (s : Sys)
    (hsub : (OTG_SLP_SET_OFF % 256) &&& (OTG_BOOST_SLP_OFF % 256) = OTG_SLP_SET_OFF % 256)
    (hv : s.regs Reg.RK818_SLEEP_SET_OFF_REG1 < 256) :
    (rk818_charger_resume OTG_BOOST_SLP_OFF
        (rk818_charger_suspend OTG_BOOST_SLP_OFF OTG_SLP_SET_OFF s).2).2.regs
      Reg.RK818_SLEEP_SET_OFF_REG1 = s.regs Reg.RK818_SLEEP_SET_OFF_REG1 := by
  have hv32 : s.regs Reg.RK818_SLEEP_SET_OFF_REG1 < 2 ^ 32 := lt_trans hv (by norm_num)
  have hb32 : OTG_BOOST_SLP_OFF % 256 < 2 ^ 32 :=
    lt_trans (Nat.mod_lt _ (by norm_num)) (by norm_num)
  have hmod : s.regs Reg.RK818_SLEEP_SET_OFF_REG1 % 256 =
      s.regs Reg.RK818_SLEEP_SET_OFF_REG1 := Nat.mod_eq_of_lt hv
  rw [suspend_eq]
  by_cases hk : otg_kept_in_sleep s
  · simp only [hk, if_true, rk818_charger_resume, rk818_reg_set_bits, rk818_reg_clear_bits,
      regmap_update_bits, Nat.mod_mod, hmod]
    exact update_bits_restore _ _ _ 0 hv32 hb32 (Nat.and_self _)
  · simp only [hk, if_false, rk818_charger_resume, rk818_reg_set_bits, regmap_update_bits,
      Nat.mod_mod, hmod, if_true]
    exact update_bits_restore _ _ _ _ hv32 hb32 hsub

/-- Witness for C15, with `OTG_BOOST_SLP_OFF = 0x90` and
`OTG_SLP_SET_OFF = 0x80`: from register 0 with OTG off, suspend sets 0x80 and
resume restores 0; from register 0xFF with OTG on and no DC, suspend clears
the boost bits (0x6F) and resume restores 0xFF. -/
theorem suspend_resume_round_trip_witness :
    ((rk818_charger_suspend 0x90 0x80 sys_init).2.regs Reg.RK818_SLEEP_SET_OFF_REG1 = 0x80 ∧
      (rk818_charger_resume 0x90 (rk818_charger_suspend 0x90 0x80 sys_init).2).2.regs
        Reg.RK818_SLEEP_SET_OFF_REG1 = sys_init.regs Reg.RK818_SLEEP_SET_OFF_REG1) ∧
    ((rk818_charger_suspend 0x90 0x80
        { sys_init with
          cg := { cg_init with otg_in := 1 }
          regs := fun _ => 0xFF }).2.regs Reg.RK818_SLEEP_SET_OFF_REG1 = 0x6F ∧
      (rk818_charger_resume 0x90
        (rk818_charger_suspend 0x90 0x80
          { sys_init with
            cg := { cg_init with otg_in := 1 }
            regs := fun _ => 0xFF }).2).2.regs Reg.RK818_SLEEP_SET_OFF_REG1 = 0xFF) :=
  ⟨⟨by decide, suspend_resume_round_trip 0x90 0x80 sys_init (by decide) (by decide)⟩,
   ⟨by decide,
    suspend_resume_round_trip 0x90 0x80
      { sys_init with
        cg := { cg_init with otg_in := 1 }
        regs := fun _ => 0xFF } (by decide) (by decide)⟩⟩

/-! ## Virtual-power override -/

/-- When the transition ends with no source flag set, the status is the one
the `switch` statement left. -/
theorem set_chrg_param_no_source (s : Sys) (charger : charger_t)
    (ha : (rk818_cg_set_chrg_param s charger).cg.ac_in = 0)
    (hu : (rk818_cg_set_chrg_param s charger).cg.usb_in = 0)
    (hd : (rk818_cg_set_chrg_param s charger).cg.dc_in = 0) :
    (set_chrg_param_switch s charger).cg.ac_in = 0 ∧
    (set_chrg_param_switch s charger).cg.usb_in = 0 ∧
    (set_chrg_param_switch s charger).cg.dc_in = 0 ∧
    (rk818_cg_set_chrg_param s charger).cg.prop_status =
      (set_chrg_param_switch s charger).cg.prop_status := by
  obtain ⟨h1, h2, h3, h4, _, _, _⟩ := set_chrg_param_after_switch s charger
  rw [h2] at ha
  rw [h3] at hu
  rw [h4] at hd
  have hon : rk818_cg_online (set_chrg_param_switch s charger) = 0 :=
    (online_eq_zero _).mpr ⟨ha, hu, hd⟩
  refine ⟨ha, hu, hd, ?_⟩
  rw [h1]
  simp only [hon, ne_eq, not_true_eq_false, false_and, if_false]

/-- One transition keeps "no source implies Discharging", provided a DC
departure that removes the last source flag reads PLUG_IN_STS clear. -/
theorem chrg_step_no_source (s : Sys) (e : charger_t × Reading)
    (hinv : no_source_discharging s) (hset : departure_settled s e) :
    no_source_discharging (chrg_step s e) := by
  rcases e with ⟨c, r⟩
  intro ha hu hd
  obtain ⟨sa, su, sd, hst⟩ := set_chrg_param_no_source (observe s r) c ha hu hd
  show (rk818_cg_set_chrg_param (observe s r) c).cg.prop_status = _
  rw [hst]
  clear ha hu hd hst
  unfold no_source_discharging at hinv
  unfold departure_settled at hset
  cases c <;>
    simp only [set_chrg_param_switch, set_input_current_eq, power_supply_changed,
      rk818_reg_read, observe] at sa su sd ⊢ <;>
    (try split_ifs at sa su sd ⊢) <;>
    simp_all

theorem chrg_run_no_source :
    ∀ (evs : List (charger_t × Reading)) (s : Sys), no_source_discharging s →
      chrg_run_settled s evs → no_source_discharging (chrg_run s evs) := by
  intro evs
  induction evs with
  | nil => intro s h _; exact h
  | cons e rest ih =>
    intro s h hs
    exact ih (chrg_step s e) (chrg_step_no_source s e h hs.1) hs.2

/-- C17 as stated fails: from the post-initialisation state a DC arrival
followed by a DC departure during which RK818_VB_MON_REG still shows
PLUG_IN_STS ends with `ac_in`, `usb_in` and `dc_in` all clear and status
Charging (capacity 50) or Full (capacity 100). -/
theorem no_source_but_charging :
    sys_init.cg.ac_in = 0 ∧ sys_init.cg.usb_in = 0 ∧ sys_init.cg.dc_in = 0 ∧
    sys_init.cg.prop_status = POWER_SUPPLY_STATUS_DISCHARGING ∧
    (chrg_run sys_init
      [(charger_t.DC_TYPE_DC_CHARGER, { regs := regs_with 50 0 0, boot_sec := 0 }),
       (charger_t.DC_TYPE_NONE_CHARGER, { regs := regs_with 50 0x40 0, boot_sec := 0 })]).cg.ac_in
      = 0 ∧
    (chrg_run sys_init
      [(charger_t.DC_TYPE_DC_CHARGER, { regs := regs_with 50 0 0, boot_sec := 0 }),
       (charger_t.DC_TYPE_NONE_CHARGER, { regs := regs_with 50 0x40 0, boot_sec := 0 })]).cg.usb_in
      = 0 ∧
    (chrg_run sys_init
      [(charger_t.DC_TYPE_DC_CHARGER, { regs := regs_with 50 0 0, boot_sec := 0 }),
       (charger_t.DC_TYPE_NONE_CHARGER, { regs := regs_with 50 0x40 0, boot_sec := 0 })]).cg.dc_in
      = 0 ∧
    (chrg_run sys_init
      [(charger_t.DC_TYPE_DC_CHARGER, { regs := regs_with 50 0 0, boot_sec := 0 }),
       (charger_t.DC_TYPE_NONE_CHARGER,
         { regs := regs_with 50 0x40 0, boot_sec := 0 })]).cg.prop_status
      = POWER_SUPPLY_STATUS_CHARGING ∧
    (chrg_run sys_init
      [(charger_t.DC_TYPE_DC_CHARGER, { regs := regs_with 100 0 0, boot_sec := 0 }),
       (charger_t.DC_TYPE_NONE_CHARGER,
         { regs := regs_with 100 0x40 0, boot_sec := 0 })]).cg.prop_status
      = POWER_SUPPLY_STATUS_FULL ∧
    ¬ no_source_discharging (chrg_run sys_init
      [(charger_t.DC_TYPE_DC_CHARGER, { regs := regs_with 50 0 0, boot_sec := 0 }),
       (charger_t.DC_TYPE_NONE_CHARGER, { regs := regs_with 50 0x40 0, boot_sec := 0 })]) := by
  refine ⟨rfl, rfl, rfl, rfl, by decide, by decide, by decide, by decide, by decide, ?_⟩
  intro h
  have := h (by decide) (by decide) (by decide)
  revert this
  decide

/-- C17 (amended). No-source implies Discharging: in every state reached from
a state with all source flags clear and status Discharging by a sequence of
`rk818_cg_set_chrg_param` transitions (any `charger_t` event, arbitrary live
register readings) in which every DC departure that removes the last source
flag (`dc_in` set, `ac_in` and `usb_in` clear) reads PLUG_IN_STS clear, if
`ac_in`, `usb_in` and `dc_in` are all clear then `prop_status` is
Discharging. -/
theorem no_source_implies_discharging (s0 : Sys) (evs : List (charger_t × Reading))
    (_ha : s0.cg.ac_in = 0) (_hu : s0.cg.usb_in = 0) (_hd : s0.cg.dc_in = 0)
    (hst : s0.cg.prop_status = POWER_SUPPLY_STATUS_DISCHARGING)
    (hsettled : chrg_run_settled s0 evs) :
    (chrg_run s0 evs).cg.ac_in = 0 → (chrg_run s0 evs).cg.usb_in = 0 →
      (chrg_run s0 evs).cg.dc_in = 0 →
      (chrg_run s0 evs).cg.prop_status = POWER_SUPPLY_STATUS_DISCHARGING :=
  chrg_run_no_source evs s0 (fun _ _ _ => hst) hsettled

/-- Witness for C17: DC arrival, USB arrival, DC departure with the plug
still detected (USB is present, so the departure is settled), USB removal:
no flag is left and the status is Discharging. -/
theorem no_source_implies_discharging_witness :
    (chrg_run sys_init
      [(charger_t.DC_TYPE_DC_CHARGER, { regs := regs_with 50 0x40 0, boot_sec := 0 }),
       (charger_t.USB_TYPE_USB_CHARGER, { regs := regs_with 50 0x40 0, boot_sec := 0 }),
       (charger_t.DC_TYPE_NONE_CHARGER, { regs := regs_with 50 0x40 0, boot_sec := 0 }),
       (charger_t.USB_TYPE_NONE_CHARGER,
         { regs := regs_with 50 0 0, boot_sec := 0 })]).cg.prop_status =
      POWER_SUPPLY_STATUS_DISCHARGING :=
  no_source_implies_discharging sys_init
    [(charger_t.DC_TYPE_DC_CHARGER, { regs := regs_with 50 0x40 0, boot_sec := 0 }),
     (charger_t.USB_TYPE_USB_CHARGER, { regs := regs_with 50 0x40 0, boot_sec := 0 }),
     (charger_t.DC_TYPE_NONE_CHARGER, { regs := regs_with 50 0x40 0, boot_sec := 0 }),
     (charger_t.USB_TYPE_NONE_CHARGER, { regs := regs_with 50 0 0, boot_sec := 0 })]
    rfl rfl rfl rfl
    ⟨by decide, by decide, by decide, by decide, trivial⟩
    (by decide) (by decide) (by decide)

/-- One transition keeps `ac_in` and `usb_in` from being both set, and keeps
the four presence flags in {0, 1}. -/
theorem set_chrg_param_flags (s : Sys) (charger : charger_t) :
    (ac_usb_exclusive s → ac_usb_exclusive (rk818_cg_set_chrg_param s charger)) ∧
    (flags_boolean s → flags_boolean (rk818_cg_set_chrg_param s charger)) := by
  obtain ⟨_, h2, h3, h4, h5, _, _⟩ := set_chrg_param_after_switch s charger
  unfold ac_usb_exclusive flags_boolean
  rw [h2, h3, h4, h5]
  cases charger <;>
    simp only [set_chrg_param_switch, set_input_current_eq, power_supply_changed,
      rk818_reg_read] <;>
    (try split_ifs) <;>
    simp_all

theorem chrg_run_flags :
    ∀ (evs : List (charger_t × Reading)) (s : Sys),
      ac_usb_exclusive s → flags_boolean s →
      ac_usb_exclusive (chrg_run s evs) ∧ flags_boolean (chrg_run s evs) := by
  intro evs
  induction evs with
  | nil => intro s h1 h2; exact ⟨h1, h2⟩
  | cons e rest ih =>
    intro s h1 h2
    exact ih (chrg_step s e)
      ((set_chrg_param_flags (observe s e.2) e.1).1 h1)
      ((set_chrg_param_flags (observe s e.2) e.1).2 h2)

/-- C19. `ac_in` and `usb_in` are mutually exclusive: every
`rk818_cg_set_chrg_param` transition, for every `charger_t` event and every
register reading, maps a state in which they are not both set to one in which
they are not both set, and a state whose four presence flags are in {0, 1} to
one whose flags are in {0, 1}; so from a state with all four flags zero no
sequence of transitions reaches `ac_in = 1` and `usb_in = 1`, and all four
flags stay in {0, 1}. -/
theorem ac_usb_mutually_exclusive :
    (∀ (s : Sys) (charger : charger_t) (r : Reading),
      ¬ (s.cg.ac_in ≠ 0 ∧ s.cg.usb_in ≠ 0) →
      ¬ ((rk818_cg_set_chrg_param (observe s r) charger).cg.ac_in ≠ 0 ∧
        (rk818_cg_set_chrg_param (observe s r) charger).cg.usb_in ≠ 0)) ∧
    (∀ (s0 : Sys) (evs : List (charger_t × Reading)),
      s0.cg.ac_in = 0 → s0.cg.usb_in = 0 → s0.cg.dc_in = 0 → s0.cg.otg_in = 0 →
      ¬ ((chrg_run s0 evs).cg.ac_in = 1 ∧ (chrg_run s0 evs).cg.usb_in = 1) ∧
      ((chrg_run s0 evs).cg.ac_in = 0 ∨ (chrg_run s0 evs).cg.ac_in = 1) ∧
      ((chrg_run s0 evs).cg.usb_in = 0 ∨ (chrg_run s0 evs).cg.usb_in = 1) ∧
      ((chrg_run s0 evs).cg.dc_in = 0 ∨ (chrg_run s0 evs).cg.dc_in = 1) ∧
      ((chrg_run s0 evs).cg.otg_in = 0 ∨ (chrg_run s0 evs).cg.otg_in = 1)) := by
  refine ⟨?_, ?_⟩
  · intro s charger r h
    exact (set_chrg_param_flags (observe s r) charger).1 h
  · intro s0 evs ha hu hd ho
    have hx : ac_usb_exclusive s0 := by
      unfold ac_usb_exclusive; simp [ha]
    have hb : flags_boolean s0 := by
      unfold flags_boolean; simp [ha, hu, hd, ho]
    obtain ⟨h1, h2, h3, h4, h5⟩ := chrg_run_flags evs s0 hx hb
    unfold ac_usb_exclusive at h1
    refine ⟨?_, by omega, by omega, by omega, by omega⟩
    rintro ⟨e1, e2⟩
    exact h1 ⟨by omega, by omega⟩

/-- Witness for C19: from `sys_init` (all flags zero) an AC arrival followed by
a USB arrival leaves `ac_in = 0`, `usb_in = 1`. -/
theorem ac_usb_mutually_exclusive_witness :
    (chrg_run sys_init
      [(charger_t.USB_TYPE_AC_CHARGER, { regs := regs_with 50 0x40 0, boot_sec := 0 }),
       (charger_t.USB_TYPE_USB_CHARGER, { regs := regs_with 50 0x40 0, boot_sec := 0 })]).cg.ac_in
      = 0 ∧
    (chrg_run sys_init
      [(charger_t.USB_TYPE_AC_CHARGER, { regs := regs_with 50 0x40 0, boot_sec := 0 }),
       (charger_t.USB_TYPE_USB_CHARGER, { regs := regs_with 50 0x40 0, boot_sec := 0 })]).cg.usb_in
      = 1 ∧
    ¬ ((chrg_run sys_init
      [(charger_t.USB_TYPE_AC_CHARGER, { regs := regs_with 50 0x40 0, boot_sec := 0 }),
       (charger_t.USB_TYPE_USB_CHARGER, { regs := regs_with 50 0x40 0, boot_sec := 0 })]).cg.ac_in
      = 1 ∧
    (chrg_run sys_init
      [(charger_t.USB_TYPE_AC_CHARGER, { regs := regs_with 50 0x40 0, boot_sec := 0 }),
       (charger_t.USB_TYPE_USB_CHARGER, { regs := regs_with 50 0x40 0, boot_sec := 0 })]).cg.usb_in
      = 1) :=
  ⟨by decide, by decide,
   (ac_usb_mutually_exclusive.2 sys_init
      [(charger_t.USB_TYPE_AC_CHARGER, { regs := regs_with 50 0x40 0, boot_sec := 0 }),
       (charger_t.USB_TYPE_USB_CHARGER, { regs := regs_with 50 0x40 0, boot_sec := 0 })]
      rfl rfl rfl rfl).1⟩

/-! ## DC and OTG are exclusive under power sharing -/

/-- What `rk818_cg_set_otg_state` does to the fields of the invariant. -/
theorem set_otg_state_fields (OTG_EN_MASK : Nat) (s : Sys) (state : bc_port_type) :
    (rk818_cg_set_otg_state OTG_EN_MASK s state).cg.pdata = s.cg.pdata ∧
    (rk818_cg_set_otg_state OTG_EN_MASK s state).cg.dc_in = s.cg.dc_in ∧
    (state = bc_port_type.USB_OTG_POWER_OFF →
      (rk818_cg_set_otg_state OTG_EN_MASK s state).cg.otg_in = 0) := by
  cases state <;>
    simp only [rk818_cg_set_otg_state, disable_irq, enable_irq, rk818_reg_set_bits,
      rk818_reg_clear_bits, regmap_update_bits] <;>
    (try split_ifs) <;>
    simp_all

/-- The transition keeps `pdata` and `otg_in`; `dc_in` changes only on the two
DC events. -/
theorem set_chrg_param_exclusive (s : Sys) (charger : charger_t) (h : dc_otg_exclusive s)
    (hc : charger = charger_t.DC_TYPE_DC_CHARGER → s.cg.otg_in = 0) :
    dc_otg_exclusive (rk818_cg_set_chrg_param s charger) := by
  obtain ⟨f1, f2, _⟩ := set_chrg_param_frame s charger
  have fdc := set_chrg_param_dc_in s charger
  unfold dc_otg_exclusive at h ⊢
  rw [f1, f2, fdc]
  refine ⟨h.1, ?_⟩
  rintro ⟨hd, ho⟩
  by_cases c1 : charger = charger_t.DC_TYPE_DC_CHARGER
  · exact ho (hc c1)
  · by_cases c2 : charger = charger_t.DC_TYPE_NONE_CHARGER
    · simp [c1, c2] at hd
    · simp only [c1, c2, if_false] at hd
      exact h.2 ⟨hd, ho⟩

/-- A power-on request keeps the invariant: it is ignored while `dc_in` is
set. -/
theorem otg_request_exclusive (OTG_EN_MASK : Nat) (s : Sys) (h : dc_otg_exclusive s) :
    dc_otg_exclusive
      (if s.cg.pdata.power_dc2otg ≠ 0 ∧ s.cg.dc_in ≠ 0 then s
        else rk818_cg_set_otg_state OTG_EN_MASK s bc_port_type.USB_OTG_POWER_ON) := by
  by_cases hd : s.cg.dc_in ≠ 0
  · have : s.cg.pdata.power_dc2otg ≠ 0 ∧ s.cg.dc_in ≠ 0 := ⟨h.1, hd⟩
    rw [if_pos this]
    exact h
  · have : ¬ (s.cg.pdata.power_dc2otg ≠ 0 ∧ s.cg.dc_in ≠ 0) := fun hh => hd hh.2
    rw [if_neg this]
    obtain ⟨g1, g2, _⟩ := set_otg_state_fields OTG_EN_MASK s bc_port_type.USB_OTG_POWER_ON
    unfold dc_otg_exclusive
    rw [g1, g2]
    exact ⟨h.1, fun hh => hd hh.1⟩

theorem otg_off_exclusive (OTG_EN_MASK : Nat) (s : Sys) (h : s.cg.pdata.power_dc2otg ≠ 0) :
    dc_otg_exclusive
      (rk818_cg_set_otg_state OTG_EN_MASK s bc_port_type.USB_OTG_POWER_OFF) := by
  obtain ⟨g1, _, g3⟩ := set_otg_state_fields OTG_EN_MASK s bc_port_type.USB_OTG_POWER_OFF
  unfold dc_otg_exclusive
  rw [g1, g3 rfl]
  exact ⟨h, fun hh => hh.2 rfl⟩

/-- Every handler keeps the invariant. -/
theorem handle_exclusive (OTG_EN_MASK : Nat) (s : Sys) (hd : Handler)
    (h : dc_otg_exclusive s) : dc_otg_exclusive (handle OTG_EN_MASK s hd) := by
  have noDC : ∀ c : charger_t, c ≠ charger_t.DC_TYPE_DC_CHARGER →
      (c = charger_t.DC_TYPE_DC_CHARGER → s.cg.otg_in = 0) := fun c hc hc2 => absurd hc2 hc
  cases hd with
  | bc_evt ev =>
    cases ev <;> simp only [handle, rk818_cg_bc_evt_worker]
    · exact set_chrg_param_exclusive s _ h (noDC _ (by decide))
    · exact set_chrg_param_exclusive s _ h (noDC _ (by decide))
    · exact set_chrg_param_exclusive s _ h (noDC _ (by decide))
    · exact set_chrg_param_exclusive s _ h (noDC _ (by decide))
    · exact h
    · exact otg_request_exclusive OTG_EN_MASK s h
    · exact otg_off_exclusive OTG_EN_MASK s h.1
  | host_evt v1 v2 =>
    simp only [handle, rk818_cg_host_evt_worker]
    by_cases c1 : v1 > 0
    · rw [if_pos c1]
      have := otg_request_exclusive OTG_EN_MASK s h
      by_cases c : s.cg.dc_in ≠ 0
      · have cc : s.cg.pdata.power_dc2otg ≠ 0 ∧ s.cg.dc_in ≠ 0 := ⟨h.1, c⟩
        rw [if_pos cc] at this
        rw [if_pos ⟨c, h.1⟩]
        exact this
      · have cc : ¬ (s.cg.pdata.power_dc2otg ≠ 0 ∧ s.cg.dc_in ≠ 0) := fun hh => c hh.2
        rw [if_neg cc] at this
        rw [if_neg (fun hh => c hh.1)]
        exact this
    · rw [if_neg c1]
      by_cases c2 : v2 = 0
      · rw [if_pos c2]
        exact otg_off_exclusive OTG_EN_MASK s h.1
      · rw [if_neg c2]
        exact h
  | dc_det gv lvl =>
    simp only [handle]
    by_cases c : rk818_cg_get_dc_state s gv lvl = charger_t.DC_TYPE_DC_CHARGER
    · unfold rk818_cg_dc_det_worker
      simp only [c, if_true]
      obtain ⟨f1, f2, _⟩ := set_chrg_param_frame s charger_t.DC_TYPE_DC_CHARGER
      have fdc := set_chrg_param_dc_in s charger_t.DC_TYPE_DC_CHARGER
      generalize rk818_cg_set_chrg_param s charger_t.DC_TYPE_DC_CHARGER = t at f1 f2 fdc
      have hp : t.cg.pdata.power_dc2otg ≠ 0 := by rw [f1]; exact h.1
      by_cases co : t.cg.otg_in ≠ 0
      · rw [if_pos ⟨co, hp⟩]
        exact otg_off_exclusive OTG_EN_MASK t hp
      · rw [if_neg (fun hh => co hh.1)]
        exact ⟨hp, fun hh => co hh.2⟩
    · rw [dc_det_absent_keeps_otg OTG_EN_MASK s gv lvl c]
      exact set_chrg_param_exclusive s _ h (noDC _ (by decide))
  | irq_delay =>
    simp only [handle, rk818_cg_irq_delay_work]
    by_cases c1 : s.cg.plugin_trigger ≠ 0
    · rw [if_pos c1]
      exact h
    · rw [if_neg c1]
      by_cases c2 : s.cg.plugout_trigger ≠ 0
      · rw [if_pos c2]
        have h0 : dc_otg_exclusive { s with cg.plugout_trigger := 0 } := h
        have h1 := set_chrg_param_exclusive _ charger_t.USB_TYPE_NONE_CHARGER h0
          (fun hc => absurd hc (by decide))
        exact set_chrg_param_exclusive _ charger_t.DC_TYPE_NONE_CHARGER h1
          (fun hc => absurd hc (by decide))
      · rw [if_neg c2]
        exact h
  | plug_in_isr => exact h
  | plug_out_isr => exact h

theorem handlers_run_exclusive (OTG_EN_MASK : Nat) :
    ∀ (evs : List (Handler × Reading)) (s : Sys), dc_otg_exclusive s →
      dc_otg_exclusive (handlers_run OTG_EN_MASK s evs) := by
  intro evs
  induction evs with
  | nil => intro s h; exact h
  | cons e rest ih =>
    intro s h
    exact ih (handler_step OTG_EN_MASK s e) (handle_exclusive OTG_EN_MASK (observe s e.2) e.1 h)

/-- C18. With `power_dc2otg` set, `dc_in` and `otg_in` are never both set:
starting from a state with `otg_in` clear, no sequence of handler executions
(BC work for any event, Type-C host work, DC detection work with the adapter
present or absent, plug IRQ work and the plug interrupts, under arbitrary
register readings) reaches a state with both flags set; and an OTG power-on
request arriving while `dc_in` is set, through the BC work or the host work,
leaves the whole system unchanged (`otg_in`, the boost enable bit and the IRQ
masks included). -/
theorem dc_otg_never_both (OTG_EN_MASK : Nat) (s0 : Sys) (evs : List (Handler × Reading))
    (hp : s0.cg.pdata.power_dc2otg ≠ 0) (h0 : s0.cg.otg_in = 0) :
    ¬ ((handlers_run OTG_EN_MASK s0 evs).cg.dc_in ≠ 0 ∧
      (handlers_run OTG_EN_MASK s0 evs).cg.otg_in ≠ 0) ∧
    ¬ ((handlers_run OTG_EN_MASK s0 evs).cg.dc_in = 1 ∧
      (handlers_run OTG_EN_MASK s0 evs).cg.otg_in = 1) ∧
    (∀ s : Sys, s.cg.pdata.power_dc2otg ≠ 0 → s.cg.dc_in ≠ 0 →
      rk818_cg_bc_evt_worker OTG_EN_MASK s bc_port_type.USB_OTG_POWER_ON = s ∧
      ∀ vbus_en1 vbus_en2 : Int, vbus_en1 > 0 →
        rk818_cg_host_evt_worker OTG_EN_MASK s vbus_en1 vbus_en2 = s) := by
  have hinv : dc_otg_exclusive s0 := ⟨hp, fun hh => hh.2 h0⟩
  have hfin := handlers_run_exclusive OTG_EN_MASK evs s0 hinv
  refine ⟨hfin.2, ?_, ?_⟩
  · rintro ⟨e1, e2⟩
    exact hfin.2 ⟨by omega, by omega⟩
  · intro s hps hds
    refine ⟨?_, ?_⟩
    · simp only [rk818_cg_bc_evt_worker]
      exact if_pos ⟨hps, hds⟩
    · intro v1 v2 hv
      simp only [rk818_cg_host_evt_worker]
      rw [if_pos hv]
      exact if_pos ⟨hds, hps⟩

/-- Witness for C18, with `OTG_EN_MASK = 0x80` on a board with `power_dc2otg`:
OTG power-on, DC arrival, a second OTG power-on request: the DC arrival
switches the boost off and the request during DC is ignored, so the run ends
with `dc_in = 1` and `otg_in = 0`. -/
theorem dc_otg_never_both_witness :
    ¬ ((handlers_run 0x80 sys_dc2otg
        [(Handler.bc_evt bc_port_type.USB_OTG_POWER_ON, { regs := regs_with 50 0 0, boot_sec := 0 }),
         (Handler.dc_det true 0, { regs := regs_with 50 0x40 0, boot_sec := 0 }),
         (Handler.bc_evt bc_port_type.USB_OTG_POWER_ON,
           { regs := regs_with 50 0x40 0, boot_sec := 0 })]).cg.dc_in ≠ 0 ∧
      (handlers_run 0x80 sys_dc2otg
        [(Handler.bc_evt bc_port_type.USB_OTG_POWER_ON, { regs := regs_with 50 0 0, boot_sec := 0 }),
         (Handler.dc_det true 0, { regs := regs_with 50 0x40 0, boot_sec := 0 }),
         (Handler.bc_evt bc_port_type.USB_OTG_POWER_ON,
           { regs := regs_with 50 0x40 0, boot_sec := 0 })]).cg.otg_in ≠ 0) ∧
    (handlers_run 0x80 sys_dc2otg
        [(Handler.bc_evt bc_port_type.USB_OTG_POWER_ON, { regs := regs_with 50 0 0, boot_sec := 0 }),
         (Handler.dc_det true 0, { regs := regs_with 50 0x40 0, boot_sec := 0 }),
         (Handler.bc_evt bc_port_type.USB_OTG_POWER_ON,
           { regs := regs_with 50 0x40 0, boot_sec := 0 })]).cg.dc_in = 1 ∧
    (handlers_run 0x80 sys_dc2otg
        [(Handler.bc_evt bc_port_type.USB_OTG_POWER_ON, { regs := regs_with 50 0 0, boot_sec := 0 }),
         (Handler.dc_det true 0, { regs := regs_with 50 0x40 0, boot_sec := 0 }),
         (Handler.bc_evt bc_port_type.USB_OTG_POWER_ON,
           { regs := regs_with 50 0x40 0, boot_sec := 0 })]).cg.otg_in = 0 :=
  ⟨(dc_otg_never_both 0x80 sys_dc2otg
      [(Handler.bc_evt bc_port_type.USB_OTG_POWER_ON, { regs := regs_with 50 0 0, boot_sec := 0 }),
       (Handler.dc_det true 0, { regs := regs_with 50 0x40 0, boot_sec := 0 }),
       (Handler.bc_evt bc_port_type.USB_OTG_POWER_ON,
         { regs := regs_with 50 0x40 0, boot_sec := 0 })]
      (by decide) rfl).1,
   by decide, by decide⟩

end Rk818
